import Mathlib

/-!
# Verification of the interactive MAP-Elites webapp layer

A shallow embedding of `pcgsepy/guis/main_webapp/webapp.py`: the data model
(candidates, bins, the MAP-Elites archive), the step orchestration
(`_apply_step`, `__apply_step`), the UI event handlers (`__update_content`,
`__selection`, `__emitter`, `__color`, ...), and the `general_callback`
dispatcher with its process lock.

Components of the repository that live outside the webapp layer
(`pcgsepy.mapelites.map`, `pcgsepy.mapelites.emitters`, `pcgsepy.guis.utils`,
`pcgsepy.lsystem`, `pcgsepy.hullbuilder`) are modelled from the specification:
each such definition carries a doc comment starting with `Modelled from the
spec:`.  External oracles (offspring generation, evaluation, rule validation)
are abstracted as a structure of hook functions, so theorems about the webapp
layer quantify over their behaviour.
-/

namespace SEAI

/-- Log levels of the Python `logging` module as used by the webapp
(`debug`, `info`, `warn`, `error`). -/
inductive LogLevel where
  | debug
  | info
  | warning
  | error
deriving DecidableEq, Repr

/-- Model of `pcgsepy.common.vecs.Vec`: a 3-component vector, used here for colors.
Components are rationals (the source uses Python floats such as
`Vec.v3f(0.45, 0.45, 0.45)`). -/
structure Vec where
  x : ℚ
  y : ℚ
  z : ℚ
deriving DecidableEq, Repr

/-- The default base-block color `base_color = Vec.v3f(0.45, 0.45, 0.45)`
from the top of `webapp.py`. -/
def default_base_color : Vec := ⟨45/100, 45/100, 45/100⟩

/-- Modelled from the spec: a realized phenotype (a `Structure`).  The spec
treats realization as an external oracle, so the model records the genotype
string the structure was built from, its display color (mutable via
`set_color`), and whether an external hull has been added. -/
structure SEStructure where
  builtFrom : String
  color : Vec
  hasHull : Bool
deriving DecidableEq, Repr

/-- Model of `Structure.set_color` as used by `_update_base_color` and the preview
code: overwrites the structure's display color. -/
def SEStructure.set_color (st : SEStructure) (c : Vec) : SEStructure :=
  { st with color := c }

/-- Model of `pcgsepy.lsystem.solution.CandidateSolution` (not under `src/`), with the
fields the webapp layer reads and writes: the high-level genotype `string`,
the low-level expansion `ll_string`, the lazily cached phenotype `_content`
(`none` when absent), the display `base_color`, and fitness / age /
feasibility metadata. -/
structure CandidateSolution where
  string : String
  ll_string : String
  content : Option SEStructure
  base_color : Vec
  fitness : ℚ
  age : Nat
  is_feasible : Bool
deriving DecidableEq, Repr

/-- Invariant from the spec's Candidate data model: the cached phenotype is
either absent or was realized from the candidate's current genotype. -/
def phenotype_consistent (cs : CandidateSolution) : Bool :=
  match cs.content with
  | none => true
  | some st => st.builtFrom = cs.string

/-- The two populations of a FI-2Pop bin. -/
inductive Pop where
  | feasible
  | infeasible
deriving DecidableEq, Repr

/-- Model of `'feasible' if kwargs['pop_name'] == 'Feasible' else 'infeasible'`, the
conversion used throughout the handlers. -/
def pop_of_name (s : String) : Pop :=
  if s = "Feasible" then .feasible else .infeasible

/-- Model of `pcgsepy.mapelites.bin.MAPBin` (not under `src/`): a grid cell holding the
feasible and infeasible populations, its grid coordinate `bin_idx`, its
descriptor-space size `bin_size`, and the per-population transient
`new_elite` flags. -/
structure MAPBin where
  bin_idx : Int × Int
  bin_size : ℚ × ℚ
  feasible : List CandidateSolution
  infeasible : List CandidateSolution
  new_elite_feas : Bool
  new_elite_infeas : Bool
deriving DecidableEq, Repr

/-- The population list of a bin for a given population tag. -/
def MAPBin.pop_list (b : MAPBin) : Pop → List CandidateSolution
  | .feasible => b.feasible
  | .infeasible => b.infeasible

/-- Model of `MAPBin.non_empty(pop)`: whether the given population holds any
candidate. -/
def MAPBin.non_empty (b : MAPBin) (pop : Pop) : Bool :=
  !(b.pop_list pop).isEmpty

/-- Modelled from the spec: the deterministic elite rule for a population —
the highest-fitness member, ties broken by lowest age (newest preferred). -/
def better_candidate (a b : CandidateSolution) : Bool :=
  a.fitness > b.fitness || (a.fitness = b.fitness && a.age < b.age)

/-- Modelled from the spec: the elite of a population list (`none` for an
empty population). -/
def pop_elite (l : List CandidateSolution) : Option CandidateSolution :=
  l.foldl (fun acc c =>
    match acc with
    | none => some c
    | some a => if better_candidate c a then some c else some a) none

/-- Model of `MAPBin.get_elite(population)`, modelled from the spec's elite rule. -/
def MAPBin.get_elite (b : MAPBin) (pop : Pop) : Option CandidateSolution :=
  pop_elite (b.pop_list pop)

/-- The emitter classes imported by `webapp.py` from
`pcgsepy.mapelites.emitters`; the archive stores an instance of one of
them. -/
inductive EmitterKind where
  | human
  | random
  | greedy
  | humanPrefMatrix
  | contextualBandit
  | preferenceBandit
  | kn
  | kernel
deriving DecidableEq, Repr

/-- Model of `pcgsepy.mapelites.map.MAPElites` (not under `src/`), restricted to the
state the webapp layer manipulates: the grid of bins, the
quantity-enforcement flag `enforce_qnt`, the current emitter, the
new-solutions counter, and the hull builder's smoothing flag. -/
structure MAPElites where
  bins : List MAPBin
  enforce_qnt : Bool
  emitter : EmitterKind
  n_new_solutions : Nat
  hull_smoothing : Bool
deriving DecidableEq, Repr

/-- The 2-D indexing `mapelites.bins[r, c]`: the bin whose grid coordinate is
`(r, c)` (`none` when out of bounds). -/
def MAPElites.binAt (m : MAPElites) (idx : Int × Int) : Option MAPBin :=
  m.bins.find? (fun b => b.bin_idx = idx)

/-- Modelled from the spec: `MAPElites._valid_bins()` — the bin indices that
are currently "valid" for interactive selection (within grid bounds and
currently non-empty). -/
def MAPElites.valid_bins (m : MAPElites) : List (Int × Int) :=
  (m.bins.filter (fun b => b.non_empty .feasible || b.non_empty .infeasible)).map
    (fun b => b.bin_idx)

/-- Model of `pcgsepy.mapelites.map.get_elite(mapelites, bin_idx, pop)`, modelled from
the spec: the elite of the given bin and population. -/
def get_elite (m : MAPElites) (bin_idx : Int × Int) (pop : Pop) :
    Option CandidateSolution :=
  (m.binAt bin_idx).bind (fun b => b.get_elite pop)

/-- Model of `_switch` from `webapp.py`: swap the members of every pair in a list of
index tuples. -/
def _switch (ls : List (Int × Int)) : List (Int × Int) :=
  ls.map (fun e => (e.2, e.1))

/-- Recoloring of one candidate inside `_update_base_color`:
`cs.base_color = color; if cs._content is not None: cs.content.set_color(color)`. -/
def recolor_candidate (color : Vec) (cs : CandidateSolution) : CandidateSolution :=
  { cs with
    base_color := color
    content := cs.content.map (fun st => st.set_color color) }

/-- Model of `_update_base_color` from `webapp.py`: set the base color of every
candidate in both populations of every bin (and of its cached phenotype when
present). -/
def _update_base_color (color : Vec) (m : MAPElites) : MAPElites :=
  { m with
    bins := m.bins.map (fun b =>
      { b with
        feasible := b.feasible.map (recolor_candidate color)
        infeasible := b.infeasible.map (recolor_candidate color) }) }

/-- Modelled from the spec: `lsystem._set_structure(cs)` realizes the
candidate's phenotype from its current genotype and caches it.  The realized
structure records the genotype it was built from. -/
def set_structure (cs : CandidateSolution) : CandidateSolution :=
  { cs with content := some ⟨cs.string, cs.base_color, false⟩ }

/-- Modelled from the spec: `lsystem._add_ll_strings(cs)` recomputes the
candidate's low-level expansion from its high-level genotype. -/
def add_ll_strings (cs : CandidateSolution) : CandidateSolution :=
  { cs with ll_string := "ll " ++ cs.string }

/-- Modelled from the spec: `hullbuilder.enforce_symmetry(string, axis)`
transforms the genotype so that the realized structure is symmetric about the
axis; the result is a different genotype string tagged with the axis. -/
def enforce_symmetry (s : String) (axis : Char) : String :=
  String.mk [axis] ++ ":" ++ s

/-- Modelled from the spec: `hull_builder.add_external_hull(structure)` adds
the external hull to a realized structure. -/
def add_external_hull (st : SEStructure) : SEStructure :=
  { st with hasHull := true }

/-- Events raised during one `_apply_step` call: archive-phase events and
logging calls, in program order. -/
inductive StepEv where
  | resetElites
  | interactiveStep (sel : List (Int × Int))
  | emitterStep
  | updateElites
  | refreshContents
  | log (lvl : LogLevel) (msg : String)
deriving DecidableEq, Repr

/-- Whether a step event is a warning-level log entry. -/
def StepEv.isWarning : StepEv → Bool
  | .log .warning _ => true
  | _ => false

/-- Whether a step event is an archive-phase event (everything except a log
call). -/
def StepEv.isPhase : StepEv → Bool
  | .log _ _ => false
  | _ => true

/-- The operations the webapp layer invokes on modules that are not under
`src/` (`pcgsepy.mapelites.map`, `pcgsepy.mapelites.emitters`,
`pcgsepy.lsystem`): offspring-producing steps, archive maintenance, and rule
handling.  Theorems quantify over these hooks. -/
structure ExtHooks where
  interactive : MAPElites → List (Int × Int) → Nat → MAPElites
  emitter_step : MAPElites → Nat → MAPElites
  update_elites_scan : MAPElites → MAPElites
  update_behavior_descriptors : MAPElites → String → MAPElites
  subdivide : MAPElites → Int × Int → MAPElites
  reset : MAPElites → MAPElites
  load_population : MAPElites → String → MAPElites
  update_fitness_weights : MAPElites → MAPElites
  toggle_module : MAPElites → String → MAPElites
  validate_rules : List (String × String × String) → Bool
  get_rules : String → Option String

/-- Hooks that never touch the archive's quantity-enforcement flag: all the
real implementations only insert candidates or rebuild bins. -/
def PreservesEnforce (hooks : ExtHooks) : Prop :=
  (∀ m sel gen, (hooks.interactive m sel gen).enforce_qnt = m.enforce_qnt) ∧
  (∀ m gen, (hooks.emitter_step m gen).enforce_qnt = m.enforce_qnt) ∧
  (∀ m, (hooks.update_elites_scan m).enforce_qnt = m.enforce_qnt) ∧
  (∀ m s, (hooks.update_behavior_descriptors m s).enforce_qnt = m.enforce_qnt) ∧
  (∀ m idx, (hooks.subdivide m idx).enforce_qnt = m.enforce_qnt) ∧
  (∀ m, (hooks.reset m).enforce_qnt = m.enforce_qnt) ∧
  (∀ m s, (hooks.load_population m s).enforce_qnt = m.enforce_qnt) ∧
  (∀ m, (hooks.update_fitness_weights m).enforce_qnt = m.enforce_qnt) ∧
  (∀ m s, (hooks.toggle_module m s).enforce_qnt = m.enforce_qnt)

/-- Hooks whose archive-mutating operations are the identity; used to
evaluate the webapp layer on concrete inputs. -/
def trivialHooks : ExtHooks where
  interactive := fun m _ _ => m
  emitter_step := fun m _ => m
  update_elites_scan := fun m => m
  update_behavior_descriptors := fun m _ => m
  subdivide := fun m _ => m
  reset := fun m => m
  load_population := fun m _ => m
  update_fitness_weights := fun m => m
  toggle_module := fun m _ => m
  validate_rules := fun _ => true
  get_rules := fun _ => some ""

/-- Model of `mapelites.update_elites(reset=True)`, modelled from the spec: clear
every bin's `new_elite` flags for the new generation. -/
def update_elites_reset (m : MAPElites) : MAPElites :=
  { m with
    bins := m.bins.map (fun b =>
      { b with new_elite_feas := false, new_elite_infeas := false }) }

/-- In-place mutation of one candidate object held in a population list: the
Python code mutates the elite through an alias, so the list entry equal to
the elite is replaced by its mutated version. -/
def replace_candidate (l : List CandidateSolution) (old new : CandidateSolution) :
    List CandidateSolution :=
  l.map (fun c => if c = old then new else c)

/-- Apply `f` in place to the elite of the given population of a bin. -/
def MAPBin.mutate_elite (b : MAPBin) (pop : Pop) (f : CandidateSolution → CandidateSolution) :
    MAPBin :=
  match b.get_elite pop with
  | none => b
  | some e =>
    match pop with
    | .feasible => { b with feasible := replace_candidate b.feasible e (f e) }
    | .infeasible => { b with infeasible := replace_candidate b.infeasible e (f e) }

/-- Apply `f` in place to the elite of the given bin and population of the
archive. -/
def MAPElites.mutate_elite (m : MAPElites) (idx : Int × Int) (pop : Pop)
    (f : CandidateSolution → CandidateSolution) : MAPElites :=
  { m with
    bins := m.bins.map (fun b => if b.bin_idx = idx then b.mutate_elite pop f else b) }

/-- The content-refresh loop at the end of `_apply_step`: for every bin and
population, if the population is non-empty and its elite has no cached
phenotype, realize it (`lsystem._set_structure` + `_prepare_cs_content`). -/
def refresh_bin_pop (b : MAPBin) (pop : Pop) : MAPBin :=
  if b.non_empty pop then
    match b.get_elite pop with
    | none => b
    | some e => if e.content = none then b.mutate_elite pop set_structure else b
  else b

/-- The full content-refresh pass over all bins (both populations). -/
def refresh_missing_contents (m : MAPElites) : MAPElites :=
  { m with
    bins := m.bins.map (fun b => refresh_bin_pop (refresh_bin_pop b .feasible) .infeasible) }

/-- The `valid` flag computed at the top of `_apply_step`: when
quantity-enforcement is on, every selected bin index must be in
`mapelites._valid_bins()`. -/
def step_valid (m : MAPElites) (selected_bins : List (Int × Int)) : Bool :=
  if m.enforce_qnt then
    selected_bins.all (fun bin_idx => (m.valid_bins).contains bin_idx)
  else true

/-- The emitter loop `for _ in trange(app_settings.emitter_steps): ...` of
`_apply_step`: repeat `mapelites.emitter_step(gen)` and record one event per
iteration. -/
def emitter_loop (hooks : ExtHooks) (gen : Nat) :
    Nat → MAPElites → MAPElites × List StepEv
  | 0, m => (m, [])
  | n + 1, m =>
    let m1 := hooks.emitter_step m gen
    let r := emitter_loop hooks gen n m1
    (r.1, StepEv.emitterStep :: r.2)

/-- Model of `_apply_step` from `webapp.py`: validate the selection, then (valid case)
clear the `new_elite` flags, run the interactive step unless emitter-only,
run the configured number of emitter steps (swapping in a `RandomEmitter` for
emitter-only steps), rescan the elites and refresh missing phenotypes;
(invalid case) log and return `False` without touching the archive.  Returns
the archive, the success flag, and the trace of phase/log events. -/
def apply_step (hooks : ExtHooks) (mapelites : MAPElites)
    (selected_bins : List (Int × Int)) (gen_counter : Nat)
    (emitter_steps : Nat) (only_emitter : Bool) :
    MAPElites × Bool × List StepEv :=
  if step_valid mapelites selected_bins then
    let ev0 : List StepEv := [.log .info s!"Started step {gen_counter + 1}..."]
    let m1 := update_elites_reset mapelites
    let r1 :=
      if !only_emitter then
        (hooks.interactive m1 selected_bins gen_counter,
         [StepEv.log .debug "[_apply_step] human",
          StepEv.interactiveStep selected_bins])
      else (m1, [])
    let m2 := r1.1
    let ev1 := r1.2
    let ev2 : List StepEv :=
      [.log .info s!"Completed step {gen_counter + 1} (created {m2.n_new_solutions} solutions); running {emitter_steps} additional emitter steps if available..."]
    let m3 := { m2 with n_new_solutions := 0 }
    let tmp_emitter := m3.emitter
    let m4 := if only_emitter then { m3 with emitter := .random } else m3
    let r3 := emitter_loop hooks gen_counter emitter_steps m4
    let m5 := r3.1
    let ev3 := r3.2
    let m6 := if only_emitter then { m5 with emitter := tmp_emitter } else m5
    let ev4 : List StepEv :=
      [.log .info s!"Emitter step(s) completed (created {m6.n_new_solutions} solutions).",
       .log .debug "[_apply_step] Started updating elites and reassigning content if needed..."]
    let m7 := { m6 with n_new_solutions := 0 }
    let m8 := hooks.update_elites_scan m7
    let m9 := refresh_missing_contents m8
    (m9, true,
     ev0 ++ [.resetElites] ++ ev1 ++ ev2 ++ ev3 ++ ev4 ++ [.updateElites, .refreshContents])
  else
    (mapelites, false, [.log .info "Step not applied: invalid bin(s) selected."])

/-- Model of `pcgsepy.guis.utils.AppMode` (not under `src/`): the webapp runs either
in user mode or in developer mode. -/
inductive AppMode where
  | user
  | dev
deriving DecidableEq, Repr

/-- Model of `pcgsepy.guis.utils.AppSettings` (not under `src/`), restricted to the
fields `webapp.py` reads and writes: the current archive, the generation
counter, the interactive selection (in display coordinates), the configured
number of emitter steps, the symmetry axis, the app mode, and the
safe-mode / voxel-display toggles. -/
structure AppSettings where
  current_mapelites : MAPElites
  gen_counter : Nat
  selected_bins : List (Int × Int)
  emitter_steps : Nat
  symmetry : Option Char
  app_mode : AppMode
  safe_mode : Bool
  voxelised : Bool
deriving Repr

/-- The module-level mutable state of `webapp.py` shared by all handlers:
the `app_settings` singleton, the global `base_color`, and the L-system
rules currently installed in the solver. -/
structure CoreState where
  app_settings : AppSettings
  base_color : Vec
  rules : String
deriving Repr

/-- The webapp's global state including the guis-level concurrency state:
the `process_semaphore` lock flag and the `first_launch` flag. -/
structure GlobalState where
  core : CoreState
  process_locked : Bool
  first_launch : Bool
deriving Repr

/-- A plotly figure, abstracted to the number of traces in its `data` list
(the only property of a figure the control flow inspects:
`len(curr_content['data']) == 0`). -/
structure Fig where
  data : Nat
deriving DecidableEq, Repr

/-- Model of `_build_heatmap`: a read-only rendering of the archive; the figure holds
one heatmap trace. -/
def build_heatmap (_m : MAPElites) (_pop_name _metric_name _method_name : String) : Fig :=
  ⟨1⟩

/-- The figure produced by `_get_elite_content`: one scatter trace, or two
mesh traces in voxel mode, or one empty mesh when no bin is selected. -/
def elite_content_fig (bin_idx : Option (Int × Int)) (show_voxel : Bool) : Fig :=
  match bin_idx with
  | none => ⟨1⟩
  | some _ => if show_voxel then ⟨2⟩ else ⟨1⟩

/-- The archive mutation performed by `_get_elite_content` when a bin is
selected and a symmetry axis is set (`webapp.py` lines 1597-1615): through
the alias returned by `get_elite`, the code nulls the cached phenotype, sets
the genotype to its symmetrized form, rebuilds the low-level strings and the
structure, adds the hull for feasible candidates, restores the original
genotype, and recolors the new content — leaving the rebuilt content cached
on the archive's elite. -/
def preview_elite_mutation (m : MAPElites) (bin_idx : Option (Int × Int))
    (pop : Pop) (symmetry : Option Char) : MAPElites :=
  match bin_idx with
  | none => m
  | some idx =>
    match symmetry with
    | none => m
    | some axis =>
      m.mutate_elite idx pop (fun e =>
        let original_string := e.string
        let e1 := { e with content := none }
        let e2 := { e1 with string := enforce_symmetry e1.string axis }
        let e3 := set_structure (add_ll_strings e2)
        let e4 :=
          if e3.is_feasible then
            { e3 with content := e3.content.map add_external_hull }
          else e3
        let e5 := { e4 with string := original_string }
        { e5 with content := e5.content.map (fun st => st.set_color e5.base_color) })

/-- Model of `_get_elite_content`: returns the preview figure and (when a symmetry
axis is set) mutates the archive's elite as a side effect. -/
def get_elite_content (m : MAPElites) (bin_idx : Option (Int × Int)) (pop : Pop)
    (symmetry : Option Char) (show_voxel : Bool) : MAPElites × Fig :=
  (preview_elite_mutation m bin_idx pop symmetry, elite_content_fig bin_idx show_voxel)

/-- The archive mutation performed by `download_content.write_archive`
(`webapp.py` lines 1258-1268): when a symmetry axis is set, the archive's
feasible elite of the last selected bin gets its genotype permanently
symmetrized (`elite.string = enforce_symmetry(...)`); its cached phenotype is
not touched.  The subsequent export works on a fresh `CandidateSolution`
copy. -/
def download_content_mutation (m : MAPElites) (selected_bins : List (Int × Int))
    (symmetry : Option Char) : MAPElites :=
  match selected_bins.getLast? with
  | none => m
  | some last =>
    match symmetry with
    | none => m
    | some axis =>
      match _switch [last] with
      | [] => m
      | lb :: _ =>
        m.mutate_elite lb .feasible (fun e =>
          { e with string := enforce_symmetry e.string axis })

/-- The `new_elite` flag of a bin for a population tag. -/
def MAPBin.new_elite (b : MAPBin) : Pop → Bool
  | .feasible => b.new_elite_feas
  | .infeasible => b.new_elite_infeas

/-- Model of `get_properties_table(cs)`: the rendered property table, abstracted to a
token derived from the candidate. -/
def props_table (cs : Option CandidateSolution) : String :=
  match cs with
  | none => "properties -"
  | some c => "properties " ++ c.string

/-- The values `general_callback` receives: the `State`-backed component
values plus the `Input` values consumed by the handlers (the handlers receive
them through `vars = locals()`). -/
structure CallbackArgs where
  curr_heatmap : Fig
  rules : String
  curr_content : Fig
  cs_string : String
  cs_properties : String
  pop_name : String
  metric_name : String
  b0 : String
  b1 : String
  symm_axis : String
  emitter_name : String
  qs_um_modal_show : Bool
  nbs_err_modal_show : Bool
  rand_step_btn_style : String
  reset_btn_style : String
  dlbtn_label : String
  curr_legend : String
  color : String
  curr_camera : String
  curr_voxel_display : Bool
  curr_unsafemode : Bool
  curr_unsafemode_div_style : String
  curr_unsafemode_title : String
  curr_unsafemode_body : String
  curr_emittersteps_style : String
  method_name : String
  clickData : Option (Int × Int)
  modules : String
  upload_filename : String
deriving Repr

/-- The 29 `Output` values of `general_callback`, in declaration order;
`dash.no_update` is `none`. -/
structure CallbackOuts where
  heatmap_fig : Fig
  content_fig : Fig
  hl_rules : String
  selected_bin_children : String
  content_string : String
  spaceship_properties : String
  step_spinner : String
  download_population : Option String
  download_metrics : Option String
  population_label : String
  metric_label : String
  b0_label : String
  b1_label : String
  symmetry_label : String
  qs_um_modal : Bool
  nbs_err_modal : Bool
  rand_step_btn_style : String
  reset_btn_style : String
  download_btn_children : String
  content_legend : String
  emitter_label : String
  sm_modal : Bool
  unsafe_toggle : Bool
  unsafemode_div_style : String
  sm_modal_title : String
  sm_modal_body : String
  emitter_steps_style : String
  symmetry_div_style : Option String
  experiment_settings_style : Option String
deriving DecidableEq, Repr

/-- The `output` dictionary built at the top of `general_callback`
(`webapp.py` lines 2888-2918): every `State`-backed output carries the
incoming value; the rest get their fixed defaults. -/
def defaultOutputs (args : CallbackArgs) : CallbackOuts where
  heatmap_fig := args.curr_heatmap
  content_fig := args.curr_content
  hl_rules := args.rules
  selected_bin_children := ""
  content_string := args.cs_string
  spaceship_properties := args.cs_properties
  step_spinner := ""
  download_population := none
  download_metrics := none
  population_label := args.pop_name
  metric_label := args.metric_name
  b0_label := args.b0
  b1_label := args.b1
  symmetry_label := args.symm_axis
  qs_um_modal := args.qs_um_modal_show
  nbs_err_modal := args.nbs_err_modal_show
  rand_step_btn_style := args.rand_step_btn_style
  reset_btn_style := args.reset_btn_style
  download_btn_children := args.dlbtn_label
  content_legend := args.curr_legend
  emitter_label := args.emitter_name
  sm_modal := false
  unsafe_toggle := args.curr_unsafemode
  unsafemode_div_style := args.curr_unsafemode_div_style
  sm_modal_title := args.curr_unsafemode_title
  sm_modal_body := args.curr_unsafemode_body
  emitter_steps_style := args.curr_emittersteps_style
  symmetry_div_style := none
  experiment_settings_style := none

/-- Model of `_format_bins(mapelites, bins_idx_list, 'Selected bin(s):', do_switch=True,
filter_out_empty=True)` as called from `general_callback`: renders the label
for every non-empty selected bin and removes a selected bin from the list
when it is empty and its (switched) index occurs in the list. -/
def format_bins_step (m : MAPElites) (acc : List (Int × Int) × String)
    (b : MAPBin) : List (Int × Int) × String :=
  let i := b.bin_idx.1
  let j := b.bin_idx.2
  if b.non_empty .feasible || b.non_empty .infeasible then
    let ii := j
    let jj := i
    let bc1 := ((m.bins.filter
      (fun mb => mb.bin_idx.1 < ii ∧ mb.bin_idx.2 = jj)).map
        (fun mb => mb.bin_size.1)).sum
    let bc2 := ((m.bins.filter
      (fun mb => mb.bin_idx.1 = ii ∧ mb.bin_idx.2 < jj)).map
        (fun mb => mb.bin_size.2)).sum
    (acc.1, acc.2 ++ s!" ({ii}, {jj}) [{bc1}:{bc2}];")
  else if acc.1.contains (i, j) then
    (acc.1.erase (i, j), acc.2)
  else acc

def format_bins (m : MAPElites) (bins_idx_list : List (Int × Int)) :
    List (Int × Int) × String :=
  let bins_list := bins_idx_list.filterMap (fun p => m.binAt (p.2, p.1))
  bins_list.foldl (format_bins_step m) (bins_idx_list, "Selected bin(s):")

/-- The post-success block of `__apply_step` (`webapp.py` lines 1907-1935):
drop selected bins that became invalid and refresh the preview of the last
selected bin when its elite changed.  Returns the (possibly
preview-mutated) archive, the trimmed selection, and the content figure,
content string and properties to display. -/
def apply_step_post_update (m' : MAPElites) (s : AppSettings)
    (args : CallbackArgs) :
    MAPElites × List (Int × Int) × Fig × String × String :=
  let pop := pop_of_name args.pop_name
  if s.selected_bins ≠ [] then
    let sel' := s.selected_bins.filter
      (fun b => (m'.valid_bins).contains (b.2, b.1))
    if h : sel' = [] then
      let rA := get_elite_content m' none pop s.symmetry false
      (rA.1, sel', rA.2, "", props_table none)
    else
      let lastb := sel'.getLast h
      let lb := (lastb.2, lastb.1)
      if ((m'.binAt lastb).map (fun b => b.new_elite pop)).getD false then
        let rA :=
          get_elite_content m' (some lb) pop s.symmetry args.curr_voxel_display
        let e := get_elite rA.1 lb pop
        (rA.1, sel', rA.2, ((e.map (fun x => x.string)).getD ""), props_table e)
      else (m', sel', args.curr_content, args.cs_string, args.cs_properties)
  else (m', s.selected_bins, args.curr_content, args.cs_string, args.cs_properties)

/-- Model of `__apply_step` from `webapp.py`: run `_apply_step` when a selection
exists (or for the random-step button); on success increment the generation
counter, drop selected bins that became invalid, refresh the preview of the
last selected bin when its elite changed, and rebuild the heatmap; otherwise
show the no-bins-selected modal. -/
def handler_apply_step (hooks : ExtHooks) (ev : String) (c : CoreState)
    (args : CallbackArgs) : CoreState × (CallbackOuts → CallbackOuts) :=
  let s := c.app_settings
  if s.selected_bins ≠ [] ∨ ev = "rand-step-btn" then
    let only_emitter := ev = "rand-step-btn" && (s.app_mode == AppMode.user)
    let r := apply_step hooks s.current_mapelites
      (_switch s.selected_bins) s.gen_counter s.emitter_steps only_emitter
    let m' := r.1
    let res := r.2.1
    if res then
      let u := apply_step_post_update m' s args
      let m2 := u.1
      let sel2 := u.2.1
      let cc := u.2.2.1
      let cs := u.2.2.2.1
      let props := u.2.2.2.2
      let hm := build_heatmap m2 args.pop_name args.metric_name args.method_name
      ({ c with app_settings :=
          { s with current_mapelites := m2, gen_counter := s.gen_counter + 1,
                   selected_bins := sel2 } },
       fun o => { o with
        content_fig := cc, content_string := cs, heatmap_fig := hm,
        nbs_err_modal := args.nbs_err_modal_show, spaceship_properties := props,
        download_btn_children := args.dlbtn_label })
    else
      (c, fun o => { o with
        content_fig := args.curr_content, content_string := args.cs_string,
        heatmap_fig := args.curr_heatmap, nbs_err_modal := args.nbs_err_modal_show,
        spaceship_properties := args.cs_properties,
        download_btn_children := args.dlbtn_label })
  else
    (c, fun o => { o with
      content_fig := args.curr_content, content_string := args.cs_string,
      heatmap_fig := args.curr_heatmap, nbs_err_modal := true,
      spaceship_properties := args.cs_properties,
      download_btn_children := args.dlbtn_label })

/-- Model of `__reset`: reset the archive, zero the generation counter, clear the
selection, and re-apply the current base color to the fresh population. -/
def handler_reset (hooks : ExtHooks) (c : CoreState) (args : CallbackArgs) :
    CoreState × (CallbackOuts → CallbackOuts) :=
  let s := c.app_settings
  let m1 := hooks.reset s.current_mapelites
  let m2 := _update_base_color c.base_color m1
  ({ c with app_settings :=
      { s with current_mapelites := m2, gen_counter := 0, selected_bins := [] } },
   fun o => { o with
    heatmap_fig := build_heatmap m2 args.pop_name args.metric_name args.method_name,
    content_fig := (get_elite_content m2 none .infeasible none false).2,
    spaceship_properties := props_table none })

/-- Model of `__bc_change`: swap the archive's behavior descriptors when the event
names one, rebuilding the heatmap; otherwise log an error. -/
def handler_bc_change (hooks : ExtHooks) (ev : String) (c : CoreState)
    (args : CallbackArgs) : CoreState × (CallbackOuts → CallbackOuts) :=
  let s := c.app_settings
  if ev.startsWith "bc0" || ev.startsWith "bc1" then
    let m' := hooks.update_behavior_descriptors s.current_mapelites ev
    ({ c with app_settings := { s with current_mapelites := m' } },
     fun o => { o with
      heatmap_fig := build_heatmap m' args.pop_name args.metric_name args.method_name })
  else
    (c, fun o => { o with heatmap_fig := args.curr_heatmap })

/-- Model of `__subdivide`: subdivide every selected bin (switched to grid
coordinates) and clear the selection. -/
def handler_subdivide (hooks : ExtHooks) (c : CoreState) (args : CallbackArgs) :
    CoreState × (CallbackOuts → CallbackOuts) :=
  let s := c.app_settings
  let bin_idxs := s.selected_bins.map (fun x => (x.2, x.1))
  let m' := bin_idxs.foldl (fun m idx => hooks.subdivide m idx) s.current_mapelites
  ({ c with app_settings :=
      { s with current_mapelites := m', selected_bins := [] } },
   fun o => { o with
    heatmap_fig := build_heatmap m' args.pop_name args.metric_name args.method_name })

/-- Model of `__lsystem_modules`: toggle the mutability of one L-system module. -/
def handler_lsystem_modules (hooks : ExtHooks) (c : CoreState) (args : CallbackArgs) :
    CoreState × (CallbackOuts → CallbackOuts) :=
  let s := c.app_settings
  let m' := hooks.toggle_module s.current_mapelites args.modules
  ({ c with app_settings := { s with current_mapelites := m' } }, id)

/-- Python `str.split(sep)` with an explicit one-character separator: splits
at every occurrence of the separator, keeping empty parts. -/
def splitOnChar (sep : Char) : List Char → List (List Char)
  | [] => [[]]
  | c :: cs =>
    let r := splitOnChar sep cs
    if c = sep then [] :: r
    else
      match r with
      | [] => [[c]]
      | g :: gs => (c :: g) :: gs

/-- Model of `str.split(sep)` on strings. -/
def pySplit (sep : Char) (s : String) : List String :=
  (splitOnChar sep s.toList).map String.mk

/-- Model of `str.strip()`: remove surrounding whitespace. -/
def pyStrip (s : String) : String :=
  String.mk (((s.toList.dropWhile Char.isWhitespace).reverse.dropWhile
    Char.isWhitespace).reverse)

/-- Model of `float(p)` acceptance in `__update_rules`, modelled as a plain decimal
literal: digits with at most one dot and at least one digit. -/
def isFloatLit (s : String) : Bool :=
  match pySplit '.' s with
  | [a] => !a.isEmpty && a.toList.all Char.isDigit
  | [a, b] =>
    (!a.isEmpty || !b.isEmpty) && a.toList.all Char.isDigit && b.toList.all Char.isDigit
  | _ => false

/-- One line of `__update_rules`: `lhs, p, rhs = rule.strip().split(' ')`
followed by `float(p)` — `none` when the unpacking or the float conversion
would raise. -/
def parse_rule_line (line : String) : Option (String × String × String) :=
  match pySplit ' ' (pyStrip line) with
  | [lhs, p, rhs] => if isFloatLit p then some (lhs, p, rhs) else none
  | _ => none

/-- The rule-parsing loop of `__update_rules` over `rules.split('\n')`. -/
def parse_rules (text : String) : Option (List (String × String × String)) :=
  (pySplit '\n' text).mapM parse_rule_line

/-- Model of `__update_rules`: parse the rules text (an unparsable line raises out of
the handler), then validate; on success install the new rules, on validation
failure keep the old ones.  The `hl-rules` output shows the rules now
installed. -/
def handler_update_rules (hooks : ExtHooks) (c : CoreState) (args : CallbackArgs) :
    Except Unit (CoreState × (CallbackOuts → CallbackOuts)) :=
  match parse_rules args.rules with
  | none => .error ()
  | some rs =>
    if hooks.validate_rules rs then
      .ok ({ c with rules := args.rules },
        fun o => { o with hl_rules := args.rules })
    else
      .ok (c, fun o => { o with hl_rules := c.rules })

/-- Model of `__fitness_weights`: rewrite the per-objective weights and rebuild the
heatmap. -/
def handler_fitness_weights (hooks : ExtHooks) (c : CoreState) (args : CallbackArgs) :
    CoreState × (CallbackOuts → CallbackOuts) :=
  let s := c.app_settings
  let m' := hooks.update_fitness_weights s.current_mapelites
  ({ c with app_settings := { s with current_mapelites := m' } },
   fun o => { o with
    heatmap_fig := build_heatmap m' args.pop_name args.metric_name args.method_name })

/-- Model of `__update_heatmap`: re-render the heatmap for the population / metric
named by the event (read-only). -/
def handler_update_heatmap (ev : String) (c : CoreState) (args : CallbackArgs) :
    CoreState × (CallbackOuts → CallbackOuts) :=
  let pop_name :=
    if ev = "population-feasible" then "Feasible"
    else if ev = "population-infeasible" then "Infeasible"
    else args.pop_name
  let metric_name :=
    if ev = "metric-fitness" then "Fitness"
    else if ev = "metric-age" then "Age"
    else if ev = "metric-coverage" then "Coverage"
    else args.metric_name
  (c, fun o => { o with
    heatmap_fig := build_heatmap c.app_settings.current_mapelites pop_name
      metric_name args.method_name })

/-- Model of `__apply_symmetry`: record the chosen symmetry axis and clear the
selection and preview. -/
def handler_apply_symmetry (ev : String) (c : CoreState) (args : CallbackArgs) :
    CoreState × (CallbackOuts → CallbackOuts) :=
  let s := c.app_settings
  let symm_axis :=
    if ev = "symmetry-none" then "None"
    else if ev = "symmetry-x" then "X-axis"
    else if ev = "symmetry-z" then "Z-axis"
    else "None"
  let symmetry :=
    if symm_axis ≠ "None" then (symm_axis.toLower.toList).head? else none
  ({ c with app_settings := { s with symmetry := symmetry, selected_bins := [] } },
   fun o => { o with
    content_fig := (get_elite_content s.current_mapelites none .infeasible none false).2,
    heatmap_fig := build_heatmap s.current_mapelites args.pop_name args.metric_name
      args.method_name,
    content_string := "",
    symmetry_label := symm_axis,
    spaceship_properties := props_table none })

/-- Model of `__update_content`: handle a heatmap click — when the clicked bin is
non-empty and valid, preview its elite (mutating the archive when a symmetry
axis is set) and update the selection (replace it by the clicked bin under
quantity-enforcement, toggle membership otherwise).  Missing click data or an
out-of-grid index raises. -/
def handler_update_content (c : CoreState) (args : CallbackArgs) :
    Except Unit (CoreState × (CallbackOuts → CallbackOuts)) :=
  match args.clickData with
  | none => .error ()
  | some (i, j) =>
    let s := c.app_settings
    let m := s.current_mapelites
    let pop := pop_of_name args.pop_name
    match m.binAt (j, i) with
    | none => .error ()
    | some bji =>
      if bji.non_empty pop then
        if (m.valid_bins).contains (j, i) then
          let rc :=
            get_elite_content m (some (j, i)) pop s.symmetry args.curr_voxel_display
          let m1 := rc.1
          let fig := rc.2
          let sel' :=
            if !m1.enforce_qnt && s.selected_bins ≠ [] then
              if !(s.selected_bins.contains (i, j)) then s.selected_bins ++ [(i, j)]
              else s.selected_bins.erase (i, j)
            else [(i, j)]
          let w : String × String × Fig :=
            match sel'.getLast? with
            | none => ("", props_table none, args.curr_heatmap)
            | some lastb =>
              let e := get_elite m1 (lastb.2, lastb.1) pop
              (((e.map (fun x => x.string)).getD ""), props_table e,
               build_heatmap m1 args.pop_name args.metric_name args.method_name)
          let cs := w.1
          let props := w.2.1
          let hm := w.2.2
          .ok ({ c with app_settings :=
              { s with current_mapelites := m1, selected_bins := sel' } },
            fun o => { o with
              heatmap_fig := hm, content_fig := fig, content_string := cs,
              spaceship_properties := props })
        else
          .ok (c, fun o => { o with
            heatmap_fig := args.curr_heatmap, content_fig := args.curr_content,
            content_string := args.cs_string,
            spaceship_properties := args.cs_properties })
      else
        .ok (c, fun o => { o with
          heatmap_fig := args.curr_heatmap, content_fig := args.curr_content,
          content_string := args.cs_string,
          spaceship_properties := args.cs_properties })

/-- Model of `__toggle_voxelization`: record the voxel-display choice and re-render
the preview of the last selected bin (mutating the archive when a symmetry
axis is set). -/
def handler_toggle_voxelization (c : CoreState) (args : CallbackArgs) :
    CoreState × (CallbackOuts → CallbackOuts) :=
  let s := c.app_settings
  let s1 := { s with voxelised := args.curr_voxel_display }
  match s1.selected_bins.getLast? with
  | none =>
    ({ c with app_settings := s1 },
     fun o => { o with content_fig := args.curr_content })
  | some lastb =>
    let lb := (lastb.2, lastb.1)
    let rc := get_elite_content s1.current_mapelites (some lb)
      (pop_of_name args.pop_name) s1.symmetry args.curr_voxel_display
    ({ c with app_settings := { s1 with current_mapelites := rc.1 } },
     fun o => { o with content_fig := rc.2 })

/-- Model of `__selection`: toggle the quantity-enforcement flag; when it becomes on
and a selection exists, trim the selection to its last element. -/
def handler_selection (c : CoreState) : CoreState × (CallbackOuts → CallbackOuts) :=
  let s := c.app_settings
  let m := s.current_mapelites
  let m' := { m with enforce_qnt := !m.enforce_qnt }
  let sel' :=
    if m'.enforce_qnt && s.selected_bins ≠ [] then
      match s.selected_bins.getLast? with
      | some b => [b]
      | none => s.selected_bins
    else s.selected_bins
  ({ c with app_settings :=
      { s with current_mapelites := m', selected_bins := sel' } }, id)

/-- Model of `__clear_selection`: empty the selection and reset the preview. -/
def handler_clear_selection (c : CoreState) :
    CoreState × (CallbackOuts → CallbackOuts) :=
  let s := c.app_settings
  ({ c with app_settings := { s with selected_bins := [] } },
   fun o => { o with
    content_fig := (get_elite_content s.current_mapelites none .infeasible none false).2,
    content_string := "",
    spaceship_properties := props_table none })

/-- The `emitter_name` dictionary at the top of `__emitter`. -/
def emitter_name_of (ev : String) : String :=
  if ev = "emitter-human" then "Human"
  else if ev = "emitter-random" then "Random"
  else if ev = "emitter-greedy" then "Greedy"
  else if ev = "emitter-prefmatrix" then "Preference Matrix"
  else if ev = "emitter-prefbandit" then "Preference Bandit"
  else if ev = "emitter-conbandit" then "Contextual Bandit"
  else if ev = "emitter-knn" then "KNN"
  else if ev = "emitter-linkernel" then "Linear Kernel"
  else if ev = "emitter-rbfkernel" then "RBF Kernel"
  else ""

/-- Model of `__emitter`: translate the clicked dropdown entry to an emitter name and
install the matching emitter instance.  The branch structure mirrors the
source: a plain `if` for `'Random'`, then an `if/elif` chain whose first test
is `'Greedy'` and which compares against `'Preference-matrix'` (not the
produced name `'Preference Matrix'`) and has no `'RBF Kernel'` branch, so
those two fall into the final unrecognized-name `else`. -/
def handler_emitter (ev : String) (c : CoreState) :
    CoreState × (CallbackOuts → CallbackOuts) :=
  let name := emitter_name_of ev
  let s := c.app_settings
  let m := s.current_mapelites
  let m1 := if name = "Random" then { m with emitter := .random } else m
  let m2 :=
    if name = "Greedy" then { m1 with emitter := .greedy }
    else if name = "Preference-matrix" then { m1 with emitter := .humanPrefMatrix }
    else if name = "Contextual Bandit" then { m1 with emitter := .contextualBandit }
    else if name = "Preference Bandit" then { m1 with emitter := .preferenceBandit }
    else if name = "KNN" then { m1 with emitter := .kn }
    else if name = "Linear Kernel" then { m1 with emitter := .kernel }
    else if name = "Human" then { m1 with emitter := .human }
    else m1
  ({ c with app_settings := { s with current_mapelites := m2 } },
   fun o => { o with emitter_label := name })

/-- Model of `__population_download`: serialize the bins to a download payload
(read-only). -/
def handler_population_download (c : CoreState) :
    CoreState × (CallbackOuts → CallbackOuts) :=
  (c, fun o => { o with
    download_population :=
      some s!"population json with {c.app_settings.current_mapelites.bins.length} bins" })

/-- Model of `__population_upload`: load a population from file, zero the generation
counter and clear the selection. -/
def handler_population_upload (hooks : ExtHooks) (c : CoreState) (args : CallbackArgs) :
    CoreState × (CallbackOuts → CallbackOuts) :=
  let s := c.app_settings
  let m' := hooks.load_population s.current_mapelites args.upload_filename
  ({ c with app_settings :=
      { s with current_mapelites := m', gen_counter := 0, selected_bins := [] } },
   fun o => { o with
    heatmap_fig := build_heatmap m' args.pop_name args.metric_name args.method_name,
    content_fig := (get_elite_content m' none .infeasible none false).2,
    spaceship_properties := props_table none })

/-- Model of `__close_error`: close the warning modal. -/
def handler_close_error (c : CoreState) : CoreState × (CallbackOuts → CallbackOuts) :=
  (c, fun o => { o with nbs_err_modal := false })

/-- One hexadecimal digit. -/
def hexDigit? (ch : Char) : Option Nat :=
  if '0' ≤ ch ∧ ch ≤ '9' then some (ch.toNat - '0'.toNat)
  else if 'a' ≤ ch ∧ ch ≤ 'f' then some (ch.toNat - 'a'.toNat + 10)
  else if 'A' ≤ ch ∧ ch ≤ 'F' then some (ch.toNat - 'A'.toNat + 10)
  else none

/-- The color parsing of `__color`:
`int(color.lstrip('#')[i:i+2], 16) for i in (0, 2, 4)` — `none` when a slice
is not valid hexadecimal (then `int` raises). -/
def parse_hex_color (s : String) : Option (Nat × Nat × Nat) :=
  match (s.toList.dropWhile (fun ch => ch = '#')) with
  | r1 :: r2 :: g1 :: g2 :: b1 :: b2 :: _ =>
    match hexDigit? r1, hexDigit? r2, hexDigit? g1, hexDigit? g2,
          hexDigit? b1, hexDigit? b2 with
    | some a, some b, some cg, some d, some e, some f =>
      some (16 * a + b, 16 * cg + d, 16 * e + f)
    | _, _, _, _, _, _ => none
  | _ => none

/-- Model of `__color`: parse the picked color, store it as the global base color,
recolor the whole population, and re-render the preview of the last selected
bin (mutating the archive when a symmetry axis is set). -/
def handler_color (c : CoreState) (args : CallbackArgs) :
    Except Unit (CoreState × (CallbackOuts → CallbackOuts)) :=
  match parse_hex_color args.color with
  | none => .error ()
  | some (r, g, b) =>
    let new_color : Vec := ⟨(r : ℚ) / 256, (g : ℚ) / 256, (b : ℚ) / 256⟩
    let s := c.app_settings
    let m1 := _update_base_color new_color s.current_mapelites
    match s.selected_bins.getLast? with
    | none =>
      let c' := { c with base_color := new_color
                         app_settings := { s with current_mapelites := m1 } }
      .ok (c',
        fun o => { o with
          content_fig := args.curr_content,
          content_legend := s!"legend {new_color.x} {new_color.y} {new_color.z}" })
    | some lastb =>
      let lb := (lastb.2, lastb.1)
      let rc := get_elite_content m1 (some lb) (pop_of_name args.pop_name)
        s.symmetry args.curr_voxel_display
      let c' := { c with base_color := new_color
                         app_settings := { s with current_mapelites := rc.1 } }
      .ok (c',
        fun o => { o with
          content_fig := rc.2,
          content_legend := s!"legend {new_color.x} {new_color.y} {new_color.z}" })

/-- Model of `__show_quickstart_modal`. -/
def handler_quickstart (c : CoreState) : CoreState × (CallbackOuts → CallbackOuts) :=
  (c, fun o => { o with qs_um_modal := true })

/-- Model of `__default`: re-render heatmap and preview of the last selected bin
(mutating the archive when a symmetry axis is set). -/
def handler_default (c : CoreState) (args : CallbackArgs) :
    CoreState × (CallbackOuts → CallbackOuts) :=
  let s := c.app_settings
  let bin_idx := (s.selected_bins.getLast?).map (fun b => (b.2, b.1))
  let rc := get_elite_content s.current_mapelites bin_idx
    (pop_of_name args.pop_name) s.symmetry false
  ({ c with app_settings := { s with current_mapelites := rc.1 } },
   fun o => { o with
    heatmap_fig := build_heatmap rc.1 args.pop_name args.metric_name args.method_name,
    content_fig := rc.2 })

/-- Model of `__show_toggle_unsafe_mode_modal`. -/
def handler_show_unsafe_modal (c : CoreState) (args : CallbackArgs) :
    CoreState × (CallbackOuts → CallbackOuts) :=
  (c, fun o => { o with sm_modal := true, unsafe_toggle := !args.curr_unsafemode })

/-- Model of `__toggle_unsafe_mode`: install the other ruleset (keeping the old one
if rule building fails), disable hull smoothing, reset the archive, zero the
generation counter, clear the selection, and flip safe mode. -/
def handler_toggle_safemode (hooks : ExtHooks) (c : CoreState) (args : CallbackArgs) :
    CoreState × (CallbackOuts → CallbackOuts) :=
  let ruleset := if args.curr_unsafemode then "hlrules" else "hlrules_sm"
  let rules' :=
    match hooks.get_rules ruleset with
    | some r => r
    | none => c.rules
  let s := c.app_settings
  let m1 := { s.current_mapelites with hull_smoothing := false }
  let m2 := hooks.reset m1
  let c' := { c with rules := rules'
                     app_settings := { s with current_mapelites := m2, gen_counter := 0,
                                              selected_bins := [],
                                              safe_mode := !args.curr_unsafemode } }
  (c',
   fun o => { o with
    sm_modal := false,
    unsafe_toggle := !args.curr_unsafemode,
    sm_modal_title :=
      if args.curr_unsafemode then "Turn on safe mode?" else "Turn off safe mode?",
    sm_modal_body :=
      if args.curr_unsafemode then "toggle safe rules on" else "toggle safe rules off",
    hl_rules := rules',
    heatmap_fig := build_heatmap m2 args.pop_name args.metric_name args.method_name,
    content_fig := (get_elite_content m2 none .infeasible none false).2,
    spaceship_properties := props_table none })

/-- The handlers registered in the `triggers_map` dictionary. -/
inductive HandlerTag where
  | applyStep
  | reset
  | bcChange
  | subdivide
  | lsystemModules
  | updateRules
  | updateHeatmap
  | applySymmetry
  | updateContent
  | selection
  | clearSelection
  | emitter
  | popDownload
  | popUpload
  | closeError
  | color
  | fitnessWeights
  | quickstart
  | toggleVoxel
  | showUnsafeModal
  | toggleUnsafe
  | defaultCb
deriving DecidableEq, Repr

/-- The `triggers_map` dictionary of `webapp.py`: component id → handler.
An id that is not a key raises `KeyError` at dispatch time (`none` here). -/
def triggers_map (ev : String) : Option HandlerTag :=
  if ev = "step-btn" then some .applyStep
  else if ev = "rand-step-btn" then some .applyStep
  else if ev = "reset-btn" then some .reset
  else if ev = "bc0-Major-axis_Medium-axis" then some .bcChange
  else if ev = "bc0-Major-axis_Smallest-axis" then some .bcChange
  else if ev = "bc0-Average-Proportions" then some .bcChange
  else if ev = "bc0-Symmetry" then some .bcChange
  else if ev = "bc1-Major-axis_Medium-axis" then some .bcChange
  else if ev = "bc1-Major-axis_Smallest-axis" then some .bcChange
  else if ev = "bc1-Average-Proportions" then some .bcChange
  else if ev = "bc1-Symmetry" then some .bcChange
  else if ev = "subdivide-btn" then some .subdivide
  else if ev = "lsystem-modules" then some .lsystemModules
  else if ev = "update-rules-btn" then some .updateRules
  else if ev = "population-feasible" then some .updateHeatmap
  else if ev = "population-infeasible" then some .updateHeatmap
  else if ev = "metric-fitness" then some .updateHeatmap
  else if ev = "metric-age" then some .updateHeatmap
  else if ev = "metric-coverage" then some .updateHeatmap
  else if ev = "method-radio" then some .updateHeatmap
  else if ev = "symmetry-none" then some .applySymmetry
  else if ev = "symmetry-x" then some .applySymmetry
  else if ev = "symmetry-z" then some .applySymmetry
  else if ev = "heatmap-plot" then some .updateContent
  else if ev = "population_dropdown" then some .updateContent
  else if ev = "selection-btn" then some .selection
  else if ev = "selection-clr-btn" then some .clearSelection
  else if ev = "emitter-human" then some .emitter
  else if ev = "emitter-random" then some .emitter
  else if ev = "emitter-greedy" then some .emitter
  else if ev = "emitter-prefmatrix" then some .emitter
  else if ev = "emitter-prefbandit" then some .emitter
  else if ev = "emitter-conbandit" then some .emitter
  else if ev = "emitter-knn" then some .emitter
  else if ev = "emitter-linkernel" then some .emitter
  else if ev = "emitter-rbfkernel" then some .emitter
  else if ev = "popdownload-btn" then some .popDownload
  else if ev = "popupload-data" then some .popUpload
  else if ev = "nbs-err-btn" then some .closeError
  else if ev = "color-picker-btn" then some .color
  else if ev = "fitness-sldr" then some .fitnessWeights
  else if ev = "webapp-quickstart-btn" then some .quickstart
  else if ev = "voxel-preview-toggle" then some .toggleVoxel
  else if ev = "unsaferules-mode-toggle" then some .showUnsafeModal
  else if ev = "tsrm-y-btn" then some .toggleUnsafe
  else none

/-- Run one registered handler; handlers whose Python body can raise an
uncaught exception return `.error`. -/
def runHandler (hooks : ExtHooks) (tag : HandlerTag) (ev : String)
    (c : CoreState) (args : CallbackArgs) :
    Except Unit (CoreState × (CallbackOuts → CallbackOuts)) :=
  match tag with
  | .applyStep => .ok (handler_apply_step hooks ev c args)
  | .reset => .ok (handler_reset hooks c args)
  | .bcChange => .ok (handler_bc_change hooks ev c args)
  | .subdivide => .ok (handler_subdivide hooks c args)
  | .lsystemModules => .ok (handler_lsystem_modules hooks c args)
  | .updateRules => handler_update_rules hooks c args
  | .updateHeatmap => .ok (handler_update_heatmap ev c args)
  | .applySymmetry => .ok (handler_apply_symmetry ev c args)
  | .updateContent => handler_update_content c args
  | .selection => .ok (handler_selection c)
  | .clearSelection => .ok (handler_clear_selection c)
  | .emitter => .ok (handler_emitter ev c)
  | .popDownload => .ok (handler_population_download c)
  | .popUpload => .ok (handler_population_upload hooks c args)
  | .closeError => .ok (handler_close_error c)
  | .color => handler_color c args
  | .fitnessWeights => .ok (handler_fitness_weights hooks c args)
  | .quickstart => .ok (handler_quickstart c)
  | .toggleVoxel => .ok (handler_toggle_voxelization c args)
  | .showUnsafeModal => .ok (handler_show_unsafe_modal c args)
  | .toggleUnsafe => .ok (handler_toggle_safemode hooks c args)
  | .defaultCb => .ok (handler_default c args)

/-- The result of one `general_callback` invocation: the global state after
the call, the returned output tuple (`none` when an uncaught exception
escaped the callback), and which handler was dispatched, if any. -/
structure GeneralResult where
  state : GlobalState
  outputs : Option CallbackOuts
  dispatched : Option HandlerTag

/-- Model of `general_callback` from `webapp.py`: resolve the triggering event
(substituting `'reset-btn'` on first launch), build the default output
dictionary, and — only when the process semaphore is free — lock it, dispatch
the handler from `triggers_map`, merge its updates, re-format the selected
bins, rebuild the preview when a selection exists but the current preview is
empty, and unlock.  A locked semaphore skips all of that; an exception during
dispatch (including an id missing from `triggers_map`) escapes before the
unlock call. -/
def general_callback (hooks : ExtHooks) (gs : GlobalState) (trig : Option String)
    (args : CallbackArgs) : GeneralResult :=
  let tr :=
    if trig = none ∧ gs.first_launch then ((some "reset-btn" : Option String), false)
    else (trig, gs.first_launch)
  let event_trig := tr.1
  let first_launch' := tr.2
  let defaults := defaultOutputs args
  if gs.process_locked then
    { state := { gs with first_launch := first_launch' },
      outputs := some defaults,
      dispatched := none }
  else
    let gs1 : GlobalState :=
      { gs with first_launch := first_launch', process_locked := true }
    let tag? :=
      match event_trig with
      | none => some HandlerTag.defaultCb
      | some ev => triggers_map ev
    match event_trig, tag? with
    | _, none =>
      { state := gs1, outputs := none, dispatched := none }
    | event_trig, some tag =>
      match runHandler hooks tag (event_trig.getD "") gs1.core args with
      | .error _ =>
        { state := gs1, outputs := none, dispatched := some tag }
      | .ok (core1, upd) =>
        let out1 := upd defaults
        let fb :=
          format_bins core1.app_settings.current_mapelites
            core1.app_settings.selected_bins
        let sel' := fb.1
        let core2 :=
          { core1 with app_settings :=
              { core1.app_settings with selected_bins := sel' } }
        let out2 := { out1 with selected_bin_children := fb.2 }
        let co3 :=
          if sel' ≠ [] ∧ args.curr_content.data = 0 then
            match sel'.getLast? with
            | none => (core2, out2)
            | some lastb =>
              let lb := (lastb.2, lastb.1)
              let rc := get_elite_content
                core2.app_settings.current_mapelites (some lb) .feasible
                core2.app_settings.symmetry args.curr_voxel_display
              ({ core2 with app_settings :=
                  { core2.app_settings with current_mapelites := rc.1 } },
               { out2 with content_fig := rc.2 })
          else (core2, out2)
        { state := { core := co3.1, process_locked := false,
                     first_launch := first_launch' },
          outputs := some co3.2,
          dispatched := some tag }

/-! ## Concrete fixtures used to evaluate the model -/

/-- The color black, used by the fixtures (its components are integral so
that candidate equality evaluates by plain reduction). -/
def blackColor : Vec := ⟨0, 0, 0⟩

/-- A feasible candidate with a cached phenotype consistent with its
genotype. -/
def csA : CandidateSolution :=
  { string := "a", ll_string := "ll a",
    content := some ⟨"a", blackColor, false⟩,
    base_color := blackColor, fitness := 1, age := 0, is_feasible := true }

/-- A second feasible candidate in another bin. -/
def csB : CandidateSolution :=
  { string := "b", ll_string := "ll b",
    content := some ⟨"b", blackColor, false⟩,
    base_color := blackColor, fitness := 0, age := 1, is_feasible := true }

/-- A non-empty bin at grid coordinate (0, 0). -/
def binA : MAPBin :=
  { bin_idx := (0, 0), bin_size := (1/4, 1/4), feasible := [csA], infeasible := [],
    new_elite_feas := false, new_elite_infeas := false }

/-- A non-empty bin at grid coordinate (1, 0). -/
def binB : MAPBin :=
  { bin_idx := (1, 0), bin_size := (1/4, 1/4), feasible := [csB], infeasible := [],
    new_elite_feas := false, new_elite_infeas := false }

/-- A two-bin archive with quantity-enforcement on. -/
def exM : MAPElites :=
  { bins := [binA, binB], enforce_qnt := true, emitter := .random,
    n_new_solutions := 0, hull_smoothing := true }

/-- App settings over `exM` with an empty selection. -/
def exSettings : AppSettings :=
  { current_mapelites := exM, gen_counter := 0, selected_bins := [],
    emitter_steps := 1, symmetry := none, app_mode := .user,
    safe_mode := true, voxelised := false }

/-- Core state over `exSettings`. -/
def exCore : CoreState :=
  { app_settings := exSettings, base_color := blackColor, rules := "" }

/-- A set of component values for evaluating the callbacks. -/
def exArgs : CallbackArgs :=
  { curr_heatmap := ⟨1⟩, rules := "", curr_content := ⟨1⟩, cs_string := "",
    cs_properties := "properties -", pop_name := "Feasible",
    metric_name := "Fitness", b0 := "b0", b1 := "b1", symm_axis := "None",
    emitter_name := "Random", qs_um_modal_show := false,
    nbs_err_modal_show := false, rand_step_btn_style := "",
    reset_btn_style := "", dlbtn_label := "Download", curr_legend := "",
    color := "#737373", curr_camera := "", curr_voxel_display := false,
    curr_unsafemode := false, curr_unsafemode_div_style := "",
    curr_unsafemode_title := "", curr_unsafemode_body := "",
    curr_emittersteps_style := "", method_name := "Population",
    clickData := none, modules := "", upload_filename := "" }

/-! ## Claims -/

/-- C10: `_switch` is an involution — applying it twice returns the original
list of index pairs — and it preserves the list's length. -/
theorem switch_involution_length (ls : List (Int × Int)) :
    _switch (_switch ls) = ls ∧ (_switch ls).length = ls.length := by
  refine ⟨?_, ?_⟩
  · induction ls with
    | nil => rfl
    | cons a t ih => simpa [_switch] using congrArg (List.cons a) (by simpa [_switch] using ih)
  · simp [_switch]

/-- C8: the recolor operation sets the base color of every candidate in both
populations of every bin (updating the cached phenotype's color when
present) and changes nothing else: the bin count, the per-population sizes,
the bin metadata, and each candidate's genotype, low-level string, fitness,
age and feasibility are untouched. -/
theorem update_base_color_frame (color : Vec) (m : MAPElites) (i : Nat) (b : MAPBin)
    (hb : m.bins[i]? = some b) :
    (_update_base_color color m).bins.length = m.bins.length ∧
    ∃ b', (_update_base_color color m).bins[i]? = some b' ∧
      b'.bin_idx = b.bin_idx ∧
      b'.bin_size = b.bin_size ∧
      b'.new_elite_feas = b.new_elite_feas ∧
      b'.new_elite_infeas = b.new_elite_infeas ∧
      b'.feasible.length = b.feasible.length ∧
      b'.infeasible.length = b.infeasible.length ∧
      ∀ (pop : Pop) (k : Nat) (cs : CandidateSolution), (b.pop_list pop)[k]? = some cs →
        ∃ cs' : CandidateSolution, (b'.pop_list pop)[k]? = some cs' ∧
          cs'.base_color = color ∧
          cs'.string = cs.string ∧
          cs'.ll_string = cs.ll_string ∧
          cs'.fitness = cs.fitness ∧
          cs'.age = cs.age ∧
          cs'.is_feasible = cs.is_feasible ∧
          cs'.content = cs.content.map (fun st => st.set_color color) := by
  constructor
  · simp [_update_base_color]
  · refine ⟨{ b with feasible := b.feasible.map (recolor_candidate color), infeasible := b.infeasible.map (recolor_candidate color) }, ?_, rfl, rfl, rfl, rfl, by simp, by simp, ?_⟩
    · simp [_update_base_color, List.getElem?_map, hb]
    · intro pop k cs hcs
      refine ⟨recolor_candidate color cs, ?_, rfl, rfl, rfl, rfl, rfl, rfl, rfl⟩
      cases pop <;> simp [MAPBin.pop_list] at hcs ⊢ <;>
        simp [List.getElem?_map, hcs]

/-- C8 witness: the frame theorem evaluated on the concrete archive `exM`
at bin 0. -/
theorem update_base_color_frame_witness :
    exM.bins[0]? = some binA ∧
    (_update_base_color ⟨1, 0, 0⟩ exM).bins.length = exM.bins.length :=
  ⟨rfl, (update_base_color_frame ⟨1, 0, 0⟩ exM 0 binA rfl).1⟩

/-- C6 (code bug): the dropdown offers "Preference Matrix" and "RBF Kernel",
but `__emitter` compares the produced name against the misspelt string
`'Preference-matrix'` and has no RBF branch at all, so for both events the
current emitter is left unchanged (only the dropdown label updates), while
for example the contextual-bandit option does install its emitter; the
archive's bins are untouched in all cases. -/
theorem emitter_prefmatrix_rbf_bug :
    emitter_name_of "emitter-prefmatrix" = "Preference Matrix" ∧
    (handler_emitter "emitter-prefmatrix" exCore).1.app_settings.current_mapelites.emitter
      = EmitterKind.random ∧
    ((handler_emitter "emitter-prefmatrix" exCore).2 (defaultOutputs exArgs)).emitter_label
      = "Preference Matrix" ∧
    emitter_name_of "emitter-rbfkernel" = "RBF Kernel" ∧
    (handler_emitter "emitter-rbfkernel" exCore).1.app_settings.current_mapelites.emitter
      = EmitterKind.random ∧
    (handler_emitter "emitter-conbandit" exCore).1.app_settings.current_mapelites.emitter
      = EmitterKind.contextualBandit ∧
    (handler_emitter "emitter-prefmatrix" exCore).1.app_settings.current_mapelites.bins
      = exM.bins :=
  ⟨rfl, rfl, rfl, rfl, rfl, rfl, rfl⟩

/-- C4 (code bug): with a symmetry axis set, previewing a bin's elite
(`_get_elite_content`) restores the genotype but leaves the phenotype that
was rebuilt from the *symmetrized* genotype cached on the archive's
candidate, and downloading (`write_archive`) permanently symmetrizes the
archive candidate's genotype without nulling its cached phenotype — in both
cases the candidate ends with a cached phenotype present and inconsistent
with its genotype. -/
theorem symmetry_preview_download_cache_bug :
    phenotype_consistent csA = true ∧
    ((get_elite (preview_elite_mutation exM (some (0, 0)) .feasible (some 'z'))
        (0, 0) .feasible).map
      (fun e => (e.string, e.content.map SEStructure.builtFrom, phenotype_consistent e)))
      = some ("a", some "z:a", false) ∧
    ((get_elite (download_content_mutation exM [(0, 0)] (some 'z')) (0, 0) .feasible).map
      (fun e => (e.string, e.content.map SEStructure.builtFrom, phenotype_consistent e)))
      = some ("z:a", some "a", false) :=
  ⟨rfl, rfl, rfl⟩

/-! ## Helper lemmas about the step machinery -/

/-- The emitter loop records exactly one `emitterStep` event per iteration. -/
theorem emitter_loop_trace (hooks : ExtHooks) (gen : Nat) :
    ∀ (n : Nat) (m : MAPElites),
      (emitter_loop hooks gen n m).2 = List.replicate n StepEv.emitterStep := by
  intro n
  induction n with
  | zero => intro m; rfl
  | succ k ih => intro m; simp [emitter_loop, ih, List.replicate_succ]

/-- Filtering a run of emitter-step events by `isPhase` keeps all of them. -/
theorem filter_isPhase_replicate (n : Nat) :
    (List.replicate n StepEv.emitterStep).filter (fun e => e.isPhase)
      = List.replicate n StepEv.emitterStep := by
  induction n with
  | zero => rfl
  | succ k ih => simp [List.replicate_succ, ih, StepEv.isPhase]

/-- Model of `_get_elite_content` never touches the quantity-enforcement flag. -/
theorem preview_preserves_enforce (m : MAPElites) (b : Option (Int × Int))
    (p : Pop) (sym : Option Char) :
    (preview_elite_mutation m b p sym).enforce_qnt = m.enforce_qnt := by
  cases b <;> cases sym <;> rfl

/-! ## Further fixtures -/

/-- Core state whose selection names a bin outside the grid. -/
def exCoreInvalidSel : CoreState :=
  { exCore with app_settings := { exSettings with selected_bins := [(5, 5)] } }

/-- Core state with two (valid, non-empty) bins selected while
quantity-enforcement is on. -/
def exCoreTwoSel : CoreState :=
  { exCore with app_settings := { exSettings with selected_bins := [(0, 0), (0, 1)] } }

/-- Component values carrying a click on bin (0, 0). -/
def exArgsClick : CallbackArgs := { exArgs with clickData := some (0, 0) }

/-- C1 (amended): with quantity-enforcement on, a selection containing an
invalid bin aborts the whole step atomically — `_apply_step` performs no
mutation of the archive (no flag reset, no interactive or emitter step, no
elite update), logs an info-level message (`logging.info`, not a warning) and
returns `False`, and the caller `__apply_step` leaves the whole state
(generation counter included) unchanged. -/
theorem invalid_selection_aborts_step (hooks : ExtHooks) (m : MAPElites)
    (sel : List (Int × Int))
    (henf : m.enforce_qnt = true)
    (hinv : sel.all (fun b => (m.valid_bins).contains b) = false) :
    (∀ (gen steps : Nat) (oe : Bool),
      apply_step hooks m sel gen steps oe =
        (m, false, [.log .info "Step not applied: invalid bin(s) selected."])) ∧
    (∀ (c : CoreState) (args : CallbackArgs) (ev : String),
      c.app_settings.current_mapelites = m →
      _switch c.app_settings.selected_bins = sel →
      (handler_apply_step hooks ev c args).1 = c) := by
  have hval : step_valid m sel = false := by
    unfold step_valid
    rw [henf, if_pos rfl]
    exact hinv
  constructor
  · intro gen steps oe
    simp [apply_step, hval]
  · intro c args ev hm hsel
    by_cases hcond : c.app_settings.selected_bins ≠ [] ∨ ev = "rand-step-btn"
    · simp only [handler_apply_step, hm, hsel, if_pos hcond, hval, apply_step, if_false,
        Bool.false_eq_true]
    · simp only [handler_apply_step, if_neg hcond]

/-- C1 counterexample to the claim as stated: on a concrete archive with
quantity-enforcement on and an out-of-grid bin selected, the rejected step
emits no warning-level log entry (the message is logged at info level). -/
theorem invalid_selection_no_warning_logged :
    exM.enforce_qnt = true ∧
    ([((5 : Int), (5 : Int))].all (fun b => (exM.valid_bins).contains b)) = false ∧
    (apply_step trivialHooks exM [(5, 5)] 0 1 false).2.1 = false ∧
    ((apply_step trivialHooks exM [(5, 5)] 0 1 false).2.2.all
      (fun e => !e.isWarning)) = true :=
  ⟨rfl, rfl, rfl, rfl⟩

/-- C1 witness: the amended theorem evaluated on the concrete archive `exM`
with the invalid selection `[(5, 5)]`. -/
theorem invalid_selection_aborts_step_witness :
    exM.enforce_qnt = true ∧
    ([((5 : Int), (5 : Int))].all (fun b => (exM.valid_bins).contains b)) = false ∧
    apply_step trivialHooks exM [(5, 5)] 3 2 false =
      (exM, false, [.log .info "Step not applied: invalid bin(s) selected."]) ∧
    (handler_apply_step trivialHooks "step-btn" exCoreInvalidSel exArgs).1
      = exCoreInvalidSel :=
  ⟨rfl, rfl,
   (invalid_selection_aborts_step trivialHooks exM [(5, 5)] rfl rfl).1 3 2 false,
   (invalid_selection_aborts_step trivialHooks exM [(5, 5)] rfl rfl).2
     exCoreInvalidSel exArgs "step-btn" rfl rfl⟩

/-- C2 (amended): the step application rejects a selection exactly when
quantity-enforcement is on and some selected bin is invalid — it never
checks the selection's size.  The single-bin limit is enforced at click time
instead: while quantity-enforcement is on, a click handled by
`__update_content` either leaves the selection unchanged (click rejected) or
replaces the whole selection with the single clicked bin. -/
theorem step_rejects_iff_invalid_bin (hooks : ExtHooks) :
    (∀ (m : MAPElites) (sel : List (Int × Int)) (gen steps : Nat) (oe : Bool),
      ((apply_step hooks m sel gen steps oe).2.1 = false ↔
        (m.enforce_qnt = true ∧
         sel.all (fun b => (m.valid_bins).contains b) = false))) ∧
    (∀ (c : CoreState) (args : CallbackArgs) (c' : CoreState)
       (upd : CallbackOuts → CallbackOuts),
      c.app_settings.current_mapelites.enforce_qnt = true →
      handler_update_content c args = .ok (c', upd) →
      c'.app_settings.selected_bins = c.app_settings.selected_bins ∨
      ∃ p : Int × Int, c'.app_settings.selected_bins = [p]) := by
  constructor
  · intro m sel gen steps oe
    have h1 : (apply_step hooks m sel gen steps oe).2.1 = step_valid m sel := by
      by_cases hv : step_valid m sel = true
      · simp [apply_step, hv]
      · have hv' : step_valid m sel = false := by
          cases h : step_valid m sel
          · rfl
          · exact absurd h hv
        simp [apply_step, hv']
    rw [h1]
    unfold step_valid
    cases henf : m.enforce_qnt
    · simp
    · simp
  · intro c args c' upd henf hok
    simp only [handler_update_content] at hok
    split at hok
    · exact absurd hok (by simp)
    · rename_i i j hcd
      split at hok
      · exact absurd hok (by simp)
      · rename_i b _
        split at hok
        · split at hok
          · have hq : ((get_elite_content c.app_settings.current_mapelites
                (some (j, i)) (pop_of_name args.pop_name)
                c.app_settings.symmetry args.curr_voxel_display).1).enforce_qnt
                = true := by
              simpa [get_elite_content, preview_preserves_enforce] using henf
            rw [hq] at hok
            simp only [Bool.not_true, Bool.false_and, Bool.false_eq_true,
              if_false, Except.ok.injEq, Prod.mk.injEq] at hok
            right
            exact ⟨(i, j), by rw [← hok.1]⟩
          · simp only [Except.ok.injEq, Prod.mk.injEq] at hok
            left
            rw [← hok.1]
        · simp only [Except.ok.injEq, Prod.mk.injEq] at hok
          left
          rw [← hok.1]

/-- C2 counterexample to the claim as stated: on a concrete archive with
quantity-enforcement on, a step request whose selection spans two (valid)
bins is *not* rejected — the step is applied and the caller increments the
generation counter. -/
theorem two_bin_selection_step_applied :
    exM.enforce_qnt = true ∧
    exCoreTwoSel.app_settings.selected_bins.length = 2 ∧
    (_switch exCoreTwoSel.app_settings.selected_bins).all
      (fun b => (exM.valid_bins).contains b) = true ∧
    (apply_step trivialHooks exM
      (_switch exCoreTwoSel.app_settings.selected_bins) 0 1 false).2.1 = true ∧
    (handler_apply_step trivialHooks "step-btn" exCoreTwoSel exArgs).1.app_settings.gen_counter
      = 1 :=
  ⟨rfl, rfl, rfl, rfl, rfl⟩

/-- C2 witness: the amended theorem evaluated on concrete inputs — the
rejection criterion at an invalid selection, and the click handler replacing
the selection under quantity-enforcement. -/
theorem step_rejects_iff_invalid_bin_witness :
    (((apply_step trivialHooks exM [((5 : Int), (5 : Int))] 0 1 false).2.1 = false) ↔
      (exM.enforce_qnt = true ∧
       [((5 : Int), (5 : Int))].all (fun b => (exM.valid_bins).contains b) = false)) ∧
    ∃ (c' : CoreState) (upd : CallbackOuts → CallbackOuts),
      handler_update_content exCore exArgsClick = .ok (c', upd) ∧
      (c'.app_settings.selected_bins = exCore.app_settings.selected_bins ∨
       ∃ p : Int × Int, c'.app_settings.selected_bins = [p]) := by
  refine ⟨(step_rejects_iff_invalid_bin trivialHooks).1 exM [(5, 5)] 0 1 false, ?_⟩
  have h : ∃ (c' : CoreState) (upd : CallbackOuts → CallbackOuts),
      handler_update_content exCore exArgsClick = .ok (c', upd) := ⟨_, _, rfl⟩
  obtain ⟨c', upd, hok⟩ := h
  exact ⟨c', upd, hok,
    (step_rejects_iff_invalid_bin trivialHooks).2 exCore exArgsClick c' upd rfl hok⟩

/-- C5: every successfully applied step runs its phases in program order —
all bins' new-elite flags are cleared first (`update_elites(reset=True)`,
which indeed clears every flag, before any insertion), then exactly one
interactive step on the selected bins unless the step is emitter-only, then
exactly the configured number of emitter-step iterations, then the final
`update_elites` rescan followed by the cached-content refresh. -/
theorem step_phase_order (hooks : ExtHooks) (m : MAPElites)
    (sel : List (Int × Int)) (gen steps : Nat) (oe : Bool)
    (hv : step_valid m sel = true) :
    (apply_step hooks m sel gen steps oe).2.1 = true ∧
    ((apply_step hooks m sel gen steps oe).2.2.filter (fun e => e.isPhase)) =
      [StepEv.resetElites] ++ (if oe then [] else [StepEv.interactiveStep sel])
        ++ List.replicate steps StepEv.emitterStep
        ++ [StepEv.updateElites, StepEv.refreshContents] ∧
    (∀ b ∈ (update_elites_reset m).bins,
      b.new_elite_feas = false ∧ b.new_elite_infeas = false) := by
  refine ⟨?_, ?_, ?_⟩
  · simp [apply_step, hv]
  · cases oe <;>
      simp [apply_step, hv, emitter_loop_trace, filter_isPhase_replicate,
        List.filter_append, StepEv.isPhase]
  · intro b hb
    simp only [update_elites_reset, List.mem_map] at hb
    obtain ⟨b0, _, rfl⟩ := hb
    exact ⟨rfl, rfl⟩

/-! ## Enforce-flag preservation and the single-bin selection invariant -/

/-- The single-bin selection invariant: while quantity-enforcement is on,
the interactive selection holds at most one bin. -/
def sel_invariant (c : CoreState) : Prop :=
  c.app_settings.current_mapelites.enforce_qnt = true →
    c.app_settings.selected_bins.length ≤ 1

/-- The emitter loop never touches the quantity-enforcement flag when the
hooks do not. -/
theorem emitter_loop_preserves_enforce (hooks : ExtHooks)
    (hpe : PreservesEnforce hooks) (gen : Nat) :
    ∀ (n : Nat) (m : MAPElites),
      ((emitter_loop hooks gen n m).1).enforce_qnt = m.enforce_qnt := by
  intro n
  induction n with
  | zero => intro m; rfl
  | succ k ih => intro m; simp [emitter_loop, ih, hpe.2.1]

/-- A whole step never touches the quantity-enforcement flag when the hooks
do not. -/
theorem apply_step_preserves_enforce (hooks : ExtHooks)
    (hpe : PreservesEnforce hooks) (m : MAPElites) (sel : List (Int × Int))
    (gen steps : Nat) (oe : Bool) :
    ((apply_step hooks m sel gen steps oe).1).enforce_qnt = m.enforce_qnt := by
  by_cases hv : step_valid m sel = true
  · cases oe <;>
      simp [apply_step, hv, refresh_missing_contents, update_elites_reset,
        emitter_loop_preserves_enforce hooks hpe, hpe.1, hpe.2.1, hpe.2.2.1]
  · have hv' : step_valid m sel = false := by
      cases h : step_valid m sel
      · rfl
      · exact absurd h hv
    simp [apply_step, hv']

/-- One `format_bins_step` application only erases from (or keeps) the
selection list. -/
theorem format_bins_step_length_le (m : MAPElites)
    (acc : List (Int × Int) × String) (b : MAPBin) :
    ((format_bins_step m acc b).1).length ≤ acc.1.length := by
  unfold format_bins_step
  dsimp only
  split
  · simp
  · split
    · exact ((acc.1.erase_sublist _).length_le)
    · exact le_refl _

/-- The `format_bins` fold only ever shrinks the selection list. -/
theorem foldl_format_bins_length_le (m : MAPElites) :
    ∀ (bl : List MAPBin) (acc : List (Int × Int) × String),
      ((bl.foldl (format_bins_step m) acc).1).length ≤ acc.1.length := by
  intro bl
  induction bl with
  | nil => intro acc; exact le_refl _
  | cons b t ih =>
    intro acc
    exact le_trans (ih (format_bins_step m acc b)) (format_bins_step_length_le m acc b)

/-- The selection returned by `_format_bins` is never longer than the one
passed in. -/
theorem format_bins_length_le (m : MAPElites) (l : List (Int × Int)) :
    ((format_bins m l).1).length ≤ l.length := by
  unfold format_bins
  exact foldl_format_bins_length_le m _ (l, "Selected bin(s):")

/-- Recoloring the population never touches the quantity-enforcement flag. -/
theorem update_base_color_preserves_enforce (v : Vec) (m : MAPElites) :
    (_update_base_color v m).enforce_qnt = m.enforce_qnt := rfl

/-- The preview side of `_get_elite_content` never touches the
quantity-enforcement flag. -/
theorem get_elite_content_preserves_enforce (m : MAPElites)
    (b : Option (Int × Int)) (p : Pop) (sym : Option Char) (vox : Bool) :
    ((get_elite_content m b p sym vox).1).enforce_qnt = m.enforce_qnt :=
  preview_preserves_enforce m b p sym

/-- The post-success block of `__apply_step` never touches the
quantity-enforcement flag. -/
theorem apply_step_post_update_enforce (m' : MAPElites) (s : AppSettings)
    (args : CallbackArgs) :
    ((apply_step_post_update m' s args).1).enforce_qnt = m'.enforce_qnt := by
  unfold apply_step_post_update
  dsimp only
  split
  · split
    · simp [get_elite_content, preview_preserves_enforce]
    · split
      · simp [get_elite_content, preview_preserves_enforce]
      · rfl
  · rfl

/-- The post-success block of `__apply_step` only ever shrinks the
selection. -/
theorem apply_step_post_update_sel_le (m' : MAPElites) (s : AppSettings)
    (args : CallbackArgs) :
    ((apply_step_post_update m' s args).2.1).length ≤ s.selected_bins.length := by
  unfold apply_step_post_update
  dsimp only
  split
  · split
    · exact List.length_filter_le _ _
    · split
      · exact List.length_filter_le _ _
      · exact List.length_filter_le _ _
  · exact le_refl _

/-- The step handler preserves the single-bin selection invariant. -/
theorem handler_apply_step_sel_inv (hooks : ExtHooks) (ev : String)
    (c : CoreState) (args : CallbackArgs) (hpe : PreservesEnforce hooks)
    (hinv : sel_invariant c) :
    sel_invariant (handler_apply_step hooks ev c args).1 := by
  unfold handler_apply_step
  dsimp only
  split
  · split
    · intro henf
      dsimp only at henf ⊢
      rw [apply_step_post_update_enforce, apply_step_preserves_enforce hooks hpe]
        at henf
      exact le_trans (apply_step_post_update_sel_le _ _ _) (hinv henf)
    · exact hinv
  · exact hinv

/-- The click handler preserves the single-bin selection invariant. -/
theorem handler_update_content_sel_inv (c : CoreState) (args : CallbackArgs)
    (c' : CoreState) (upd : CallbackOuts → CallbackOuts)
    (hinv : sel_invariant c)
    (hok : handler_update_content c args = .ok (c', upd)) :
    sel_invariant c' := by
  simp only [handler_update_content] at hok
  split at hok
  · exact absurd hok (by simp)
  · rename_i i j hcd
    split at hok
    · exact absurd hok (by simp)
    · split at hok
      · split at hok
        · simp only [Except.ok.injEq, Prod.mk.injEq] at hok
          rw [← hok.1]
          intro henf
          dsimp only at henf ⊢
          simp [henf]
        · simp only [Except.ok.injEq, Prod.mk.injEq] at hok
          rw [← hok.1]
          exact hinv
      · simp only [Except.ok.injEq, Prod.mk.injEq] at hok
        rw [← hok.1]
        exact hinv

/-- Toggling quantity-enforcement establishes the single-bin invariant
whatever the previous selection was. -/
theorem handler_selection_sel_inv (c : CoreState) :
    sel_invariant (handler_selection c).1 := by
  unfold handler_selection
  dsimp only
  intro henf
  dsimp only at henf ⊢
  by_cases hsel : c.app_settings.selected_bins = []
  · simp [hsel]
  · rw [henf]
    simp only [Bool.true_and]
    rw [if_pos (by simpa using hsel)]
    cases hg : c.app_settings.selected_bins.getLast?
    · exact absurd (List.getLast?_eq_none_iff.mp hg) hsel
    · simp

/-- The emitter handler never touches the quantity-enforcement flag. -/
theorem handler_emitter_enforce (ev : String) (c : CoreState) :
    (handler_emitter ev c).1.app_settings.current_mapelites.enforce_qnt
      = c.app_settings.current_mapelites.enforce_qnt := by
  unfold handler_emitter
  dsimp only
  repeat' split
  all_goals rfl

/-- The emitter handler never touches the selection. -/
theorem handler_emitter_selected (ev : String) (c : CoreState) :
    (handler_emitter ev c).1.app_settings.selected_bins
      = c.app_settings.selected_bins := by
  unfold handler_emitter
  dsimp only

/-- The recolor handler preserves the single-bin selection invariant. -/
theorem handler_color_sel_inv (c : CoreState) (args : CallbackArgs)
    (c' : CoreState) (upd : CallbackOuts → CallbackOuts)
    (hinv : sel_invariant c)
    (hok : handler_color c args = .ok (c', upd)) :
    sel_invariant c' := by
  simp only [handler_color] at hok
  split at hok
  · exact absurd hok (by simp)
  · split at hok
    · simp only [Except.ok.injEq, Prod.mk.injEq] at hok
      rw [← hok.1]
      intro henf
      dsimp only at henf ⊢
      rw [update_base_color_preserves_enforce] at henf
      exact hinv henf
    · simp only [Except.ok.injEq, Prod.mk.injEq] at hok
      rw [← hok.1]
      intro henf
      dsimp only at henf ⊢
      simp only [get_elite_content] at henf
      rw [preview_preserves_enforce, update_base_color_preserves_enforce] at henf
      exact hinv henf

/-- The voxel-toggle handler preserves the single-bin selection invariant. -/
theorem handler_toggle_voxel_sel_inv (c : CoreState) (args : CallbackArgs)
    (hinv : sel_invariant c) :
    sel_invariant (handler_toggle_voxelization c args).1 := by
  unfold handler_toggle_voxelization
  dsimp only
  split
  · intro henf
    dsimp only at henf ⊢
    exact hinv henf
  · intro henf
    dsimp only at henf ⊢
    simp only [get_elite_content] at henf
    rw [preview_preserves_enforce] at henf
    exact hinv henf

/-- The fallback handler preserves the single-bin selection invariant. -/
theorem handler_default_sel_inv (c : CoreState) (args : CallbackArgs)
    (hinv : sel_invariant c) :
    sel_invariant (handler_default c args).1 := by
  unfold handler_default
  dsimp only
  intro henf
  dsimp only at henf ⊢
  simp only [get_elite_content] at henf
  rw [preview_preserves_enforce] at henf
  exact hinv henf

/-- Every handler registered in `triggers_map` preserves the single-bin
selection invariant, provided the external hooks never touch the
quantity-enforcement flag. -/
theorem runHandler_preserves_sel_invariant (hooks : ExtHooks) (tag : HandlerTag)
    (ev : String) (c : CoreState) (args : CallbackArgs)
    (hpe : PreservesEnforce hooks) (hinv : sel_invariant c)
    (c' : CoreState) (upd : CallbackOuts → CallbackOuts)
    (hok : runHandler hooks tag ev c args = .ok (c', upd)) :
    sel_invariant c' := by
  obtain ⟨hint, hemit, hscan, hbc, hsub, hres, hload, hwt, hmod⟩ := hpe
  cases tag <;> simp only [runHandler, Except.ok.injEq] at hok
  case applyStep =>
    have h1 : (handler_apply_step hooks ev c args).1 = c' := by rw [hok]
    rw [← h1]
    exact handler_apply_step_sel_inv hooks ev c args
      ⟨hint, hemit, hscan, hbc, hsub, hres, hload, hwt, hmod⟩ hinv
  case reset =>
    have h1 : (handler_reset hooks c args).1 = c' := by rw [hok]
    rw [← h1]
    intro _
    simp [handler_reset]
  case bcChange =>
    have h1 : (handler_bc_change hooks ev c args).1 = c' := by rw [hok]
    rw [← h1]
    unfold handler_bc_change
    dsimp only
    split
    · intro henf
      dsimp only at henf ⊢
      rw [hbc] at henf
      exact hinv henf
    · exact hinv
  case subdivide =>
    have h1 : (handler_subdivide hooks c args).1 = c' := by rw [hok]
    rw [← h1]
    intro _
    simp [handler_subdivide]
  case lsystemModules =>
    have h1 : (handler_lsystem_modules hooks c args).1 = c' := by rw [hok]
    rw [← h1]
    unfold handler_lsystem_modules
    dsimp only
    intro henf
    dsimp only at henf ⊢
    rw [hmod] at henf
    exact hinv henf
  case updateRules =>
    simp only [handler_update_rules] at hok
    split at hok
    · exact absurd hok (by simp)
    · split at hok
      · simp only [Except.ok.injEq, Prod.mk.injEq] at hok
        rw [← hok.1]
        exact hinv
      · simp only [Except.ok.injEq, Prod.mk.injEq] at hok
        rw [← hok.1]
        exact hinv
  case updateHeatmap =>
    have h1 : (handler_update_heatmap ev c args).1 = c' := by rw [hok]
    rw [← h1]
    exact hinv
  case applySymmetry =>
    have h1 : (handler_apply_symmetry ev c args).1 = c' := by rw [hok]
    rw [← h1]
    intro _
    simp [handler_apply_symmetry]
  case updateContent =>
    exact handler_update_content_sel_inv c args c' upd hinv hok
  case selection =>
    have h1 : (handler_selection c).1 = c' := by rw [hok]
    rw [← h1]
    exact handler_selection_sel_inv c
  case clearSelection =>
    have h1 : (handler_clear_selection c).1 = c' := by rw [hok]
    rw [← h1]
    intro _
    simp [handler_clear_selection]
  case emitter =>
    have h1 : (handler_emitter ev c).1 = c' := by rw [hok]
    rw [← h1]
    intro henf
    rw [handler_emitter_enforce] at henf
    rw [handler_emitter_selected]
    exact hinv henf
  case popDownload =>
    have h1 : (handler_population_download c).1 = c' := by rw [hok]
    rw [← h1]
    exact hinv
  case popUpload =>
    have h1 : (handler_population_upload hooks c args).1 = c' := by rw [hok]
    rw [← h1]
    intro _
    simp [handler_population_upload]
  case closeError =>
    have h1 : (handler_close_error c).1 = c' := by rw [hok]
    rw [← h1]
    exact hinv
  case color =>
    exact handler_color_sel_inv c args c' upd hinv hok
  case fitnessWeights =>
    have h1 : (handler_fitness_weights hooks c args).1 = c' := by rw [hok]
    rw [← h1]
    unfold handler_fitness_weights
    dsimp only
    intro henf
    dsimp only at henf ⊢
    rw [hwt] at henf
    exact hinv henf
  case quickstart =>
    have h1 : (handler_quickstart c).1 = c' := by rw [hok]
    rw [← h1]
    exact hinv
  case toggleVoxel =>
    have h1 : (handler_toggle_voxelization c args).1 = c' := by rw [hok]
    rw [← h1]
    exact handler_toggle_voxel_sel_inv c args hinv
  case showUnsafeModal =>
    have h1 : (handler_show_unsafe_modal c args).1 = c' := by rw [hok]
    rw [← h1]
    exact hinv
  case toggleUnsafe =>
    have h1 : (handler_toggle_safemode hooks c args).1 = c' := by rw [hok]
    rw [← h1]
    intro _
    simp [handler_toggle_safemode]
  case defaultCb =>
    have h1 : (handler_default c args).1 = c' := by rw [hok]
    rw [← h1]
    exact handler_default_sel_inv c args hinv

/-- The identity hooks never touch the quantity-enforcement flag. -/
theorem trivialHooks_preserves_enforce : PreservesEnforce trivialHooks :=
  ⟨fun _ _ _ => rfl, fun _ _ => rfl, fun _ => rfl, fun _ _ => rfl, fun _ _ => rfl,
   fun _ => rfl, fun _ _ => rfl, fun _ => rfl, fun _ _ => rfl⟩

/-- C7: whenever quantity-enforcement is on, the interactive selection holds
at most one bin after every operation — every `general_callback` invocation
(any event, any registered handler, including the post-dispatch selection
re-formatting and preview rebuild) preserves the invariant; an accepted
click replaces the whole selection with the single clicked bin; and toggling
quantity-enforcement on trims any existing multi-bin selection to a single
bin. -/
theorem selection_single_bin_invariant (hooks : ExtHooks) (gs : GlobalState)
    (trig : Option String) (args : CallbackArgs)
    (hpe : PreservesEnforce hooks) (hinv : sel_invariant gs.core) :
    sel_invariant (general_callback hooks gs trig args).state.core ∧
    (∀ (c : CoreState) (args' : CallbackArgs) (c' : CoreState)
       (upd : CallbackOuts → CallbackOuts) (i j : Int),
      c.app_settings.current_mapelites.enforce_qnt = true →
      args'.clickData = some (i, j) →
      handler_update_content c args' = .ok (c', upd) →
      c'.app_settings.selected_bins = c.app_settings.selected_bins ∨
      c'.app_settings.selected_bins = [(i, j)]) ∧
    (∀ c : CoreState,
      (handler_selection c).1.app_settings.current_mapelites.enforce_qnt = true →
      (handler_selection c).1.app_settings.selected_bins.length ≤ 1) := by
  refine ⟨?_, ?_, ?_⟩
  · unfold general_callback
    dsimp only
    split
    · exact hinv
    · split
      · exact hinv
      · split
        · exact hinv
        · rename_i core1 upd heq
          have hinv1 : sel_invariant core1 :=
            runHandler_preserves_sel_invariant hooks _ _ _ args hpe hinv core1 upd heq
          have hinv2 : sel_invariant
              { core1 with app_settings :=
                  { core1.app_settings with selected_bins :=
                      (format_bins core1.app_settings.current_mapelites
                        core1.app_settings.selected_bins).1 } } := by
            intro henf
            dsimp only at henf ⊢
            exact le_trans (format_bins_length_le _ _) (hinv1 henf)
          split
          · split
            · exact hinv2
            · intro henf
              dsimp only at henf ⊢
              simp only [get_elite_content] at henf
              rw [preview_preserves_enforce] at henf
              exact le_trans (format_bins_length_le _ _) (hinv1 henf)
          · exact hinv2
  · intro c args' c' upd i j henf hclick hok
    simp only [handler_update_content] at hok
    split at hok
    · exact absurd hok (by simp)
    · rename_i i0 j0 hcd
      rw [hclick] at hcd
      have hp : (i, j) = (i0, j0) := by injection hcd
      injection hp with hi hj
      subst hi
      subst hj
      split at hok
      · exact absurd hok (by simp)
      · split at hok
        · split at hok
          · have hq : ((get_elite_content c.app_settings.current_mapelites
                (some (j, i)) (pop_of_name args'.pop_name)
                c.app_settings.symmetry args'.curr_voxel_display).1).enforce_qnt
                = true := by
              simpa [get_elite_content, preview_preserves_enforce] using henf
            rw [hq] at hok
            simp only [Bool.not_true, Bool.false_and, Bool.false_eq_true,
              if_false, Except.ok.injEq, Prod.mk.injEq] at hok
            right
            rw [← hok.1]
          · simp only [Except.ok.injEq, Prod.mk.injEq] at hok
            left
            rw [← hok.1]
        · simp only [Except.ok.injEq, Prod.mk.injEq] at hok
          left
          rw [← hok.1]
  · exact fun c => handler_selection_sel_inv c

/-- A free-lock global state over the concrete core. -/
def exGsFree : GlobalState :=
  { core := exCore, process_locked := false, first_launch := false }

/-- C7 witness: the invariant theorem evaluated on the concrete state with
the selection-toggle event; the identity hooks preserve the enforcement flag
and the initial empty selection satisfies the invariant. -/
theorem selection_single_bin_invariant_witness :
    PreservesEnforce trivialHooks ∧
    sel_invariant exGsFree.core ∧
    sel_invariant
      (general_callback trivialHooks exGsFree (some "selection-btn") exArgs).state.core :=
  ⟨trivialHooks_preserves_enforce,
   fun _ => by decide,
   (selection_single_bin_invariant trivialHooks exGsFree (some "selection-btn")
     exArgs trivialHooks_preserves_enforce (fun _ => by decide)).1⟩

/-- A held-lock global state over the concrete core. -/
def exGsLocked : GlobalState :=
  { core := exCore, process_locked := true, first_launch := false }

/-- C3: while the process lock is held, `general_callback` dispatches no
handler and mutates none of the shared state (archive, generation counter,
selection, base color, rules, the lock itself): the event is dropped — not
queued — and the returned outputs are the defaults, which pass every
`State`-backed component value through unchanged. -/
theorem locked_callback_is_noop (hooks : ExtHooks) (gs : GlobalState)
    (trig : Option String) (args : CallbackArgs)
    (hlock : gs.process_locked = true) :
    (general_callback hooks gs trig args).state.core = gs.core ∧
    (general_callback hooks gs trig args).state.process_locked = true ∧
    (general_callback hooks gs trig args).dispatched = none ∧
    (general_callback hooks gs trig args).outputs = some (defaultOutputs args) ∧
    (defaultOutputs args).heatmap_fig = args.curr_heatmap ∧
    (defaultOutputs args).content_fig = args.curr_content ∧
    (defaultOutputs args).hl_rules = args.rules ∧
    (defaultOutputs args).content_string = args.cs_string ∧
    (defaultOutputs args).spaceship_properties = args.cs_properties ∧
    (defaultOutputs args).population_label = args.pop_name ∧
    (defaultOutputs args).metric_label = args.metric_name ∧
    (defaultOutputs args).b0_label = args.b0 ∧
    (defaultOutputs args).b1_label = args.b1 ∧
    (defaultOutputs args).symmetry_label = args.symm_axis ∧
    (defaultOutputs args).qs_um_modal = args.qs_um_modal_show ∧
    (defaultOutputs args).nbs_err_modal = args.nbs_err_modal_show ∧
    (defaultOutputs args).rand_step_btn_style = args.rand_step_btn_style ∧
    (defaultOutputs args).reset_btn_style = args.reset_btn_style ∧
    (defaultOutputs args).download_btn_children = args.dlbtn_label ∧
    (defaultOutputs args).content_legend = args.curr_legend ∧
    (defaultOutputs args).emitter_label = args.emitter_name ∧
    (defaultOutputs args).unsafe_toggle = args.curr_unsafemode ∧
    (defaultOutputs args).unsafemode_div_style = args.curr_unsafemode_div_style ∧
    (defaultOutputs args).sm_modal_title = args.curr_unsafemode_title ∧
    (defaultOutputs args).sm_modal_body = args.curr_unsafemode_body ∧
    (defaultOutputs args).emitter_steps_style = args.curr_emittersteps_style := by
  refine ⟨?_, ?_, ?_, ?_, rfl, rfl, rfl, rfl, rfl, rfl, rfl, rfl, rfl, rfl, rfl,
    rfl, rfl, rfl, rfl, rfl, rfl, rfl, rfl, rfl, rfl, rfl⟩ <;>
    simp [general_callback, hlock]

/-- C3 witness: the locked-callback theorem evaluated on the concrete locked
state with a step-button event. -/
theorem locked_callback_is_noop_witness :
    exGsLocked.process_locked = true ∧
    (general_callback trivialHooks exGsLocked (some "step-btn") exArgs).state.core
      = exGsLocked.core ∧
    (general_callback trivialHooks exGsLocked (some "step-btn") exArgs).dispatched
      = none :=
  ⟨rfl,
   (locked_callback_is_noop trivialHooks exGsLocked (some "step-btn") exArgs rfl).1,
   (locked_callback_is_noop trivialHooks exGsLocked (some "step-btn") exArgs rfl).2.2.1⟩

/-- C9: the process lock is acquired before dispatch and released only after
a normal return: when the dispatched handler raises, `general_callback`
leaves the lock held and produces no outputs (the shared state is otherwise
untouched), and every subsequent event on the resulting state is dropped —
nothing is dispatched and the shared state stays unchanged. -/
theorem handler_error_keeps_lock (hooks : ExtHooks) (gs : GlobalState)
    (ev : String) (tag : HandlerTag) (args : CallbackArgs)
    (hfree : gs.process_locked = false)
    (hmap : triggers_map ev = some tag)
    (herr : runHandler hooks tag ev gs.core args = .error ()) :
    (general_callback hooks gs (some ev) args).state.process_locked = true ∧
    (general_callback hooks gs (some ev) args).outputs = none ∧
    (general_callback hooks gs (some ev) args).state.core = gs.core ∧
    (∀ (trig' : Option String) (args' : CallbackArgs),
      (general_callback hooks
        ((general_callback hooks gs (some ev) args).state) trig' args').dispatched
        = none ∧
      (general_callback hooks
        ((general_callback hooks gs (some ev) args).state) trig' args').state.core
        = gs.core) := by
  have h1 : (general_callback hooks gs (some ev) args).state.process_locked = true := by
    simp [general_callback, hfree, hmap, herr]
  have h3 : (general_callback hooks gs (some ev) args).state.core = gs.core := by
    simp [general_callback, hfree, hmap, herr]
  refine ⟨h1, ?_, h3, ?_⟩
  · simp [general_callback, hfree, hmap, herr]
  · intro trig' args'
    set st := (general_callback hooks gs (some ev) args).state with hst
    constructor
    · simp [general_callback, h1]
    · simp only [general_callback, h1, if_true, if_pos]
      exact h3

/-- C9 witness: a malformed rules text makes `__update_rules` raise during
unpacking; the lock stays held and the following step-button event is
dropped. -/
theorem handler_error_keeps_lock_witness :
    exGsFree.process_locked = false ∧
    triggers_map "update-rules-btn" = some HandlerTag.updateRules ∧
    runHandler trivialHooks HandlerTag.updateRules "update-rules-btn" exCore exArgs
      = .error () ∧
    (general_callback trivialHooks exGsFree (some "update-rules-btn") exArgs).state.process_locked
      = true ∧
    (general_callback trivialHooks
      ((general_callback trivialHooks exGsFree (some "update-rules-btn") exArgs).state)
      (some "step-btn") exArgs).dispatched = none :=
  ⟨rfl, rfl, rfl,
   (handler_error_keeps_lock trivialHooks exGsFree "update-rules-btn"
     HandlerTag.updateRules exArgs rfl rfl rfl).1,
   ((handler_error_keeps_lock trivialHooks exGsFree "update-rules-btn"
     HandlerTag.updateRules exArgs rfl rfl rfl).2.2.2 (some "step-btn") exArgs).1⟩

/-- C5 witness: the phase-order theorem evaluated on the concrete archive
`exM` with the valid selection `[(0, 0)]` and two emitter steps. -/
theorem step_phase_order_witness :
    step_valid exM [(0, 0)] = true ∧
    ((apply_step trivialHooks exM [(0, 0)] 0 2 false).2.2.filter
      (fun e => e.isPhase)) =
      [StepEv.resetElites, StepEv.interactiveStep [(0, 0)], StepEv.emitterStep,
       StepEv.emitterStep, StepEv.updateElites, StepEv.refreshContents] :=
  ⟨rfl, by
    have h := (step_phase_order trivialHooks exM [(0, 0)] 0 2 false rfl).2.1
    simpa using h⟩

end SEAI
